import Mathlib

/-!
Shallow embedding of the appointment lifecycle engine of the
express-clinic-sched2 backend.

The definitions below are translated from the route handlers in
`src/routes/appointments.js`, `src/routes/patientBooking.js`, the portal
booking revision in `src/unnamed/part_012`, the patient unlock route in
`src/unnamed/part_009`, and the Appointment schema in `src/unnamed/part_007`.
Documents are modelled as Lean structures; the document store is a pair of
lists threaded through every handler; a handler returns the new store state
together with the HTTP-level response (success or a tagged error mirroring
the handler's 4xx returns).  Timestamps are integers (milliseconds since
epoch, as JavaScript `Date.getTime()`); 12-hour time strings are modelled
structurally by `Time12`.
-/

namespace Clinic

/-- Appointment status enum, from the Appointment schema
(`src/unnamed/part_007`, field `status`). -/
inductive Status where
  | scheduled
  | confirmed
  | completed
  | cancelled
  | noShow
  | rescheduled
  | cancellationPending
  | reschedulePending
deriving DecidableEq, Repr

/-- Status of an embedded cancellation/reschedule request
(enum pending/approved/rejected in the schema). -/
inductive ReqStatus where
  | pending
  | approved
  | rejected
deriving DecidableEq, Repr

/-- Booking source enum (`staff` or `patient_portal`). -/
inductive Source where
  | staff
  | patientPortal
deriving DecidableEq, Repr

/-- Patient workflow status enum from the Patient schema
(`src/models/Patient.js`, `New`/`Active`/`Inactive`). -/
inductive PatientStatus where
  | new
  | active
  | inactive
deriving DecidableEq, Repr

/-- A 12-hour clock time string such as "9:30 AM", modelled structurally:
`hour` is 1..12, `minute` 0..59, `pm` the AM/PM suffix.  Appointment times
are stored and compared as such strings in the source. -/
structure Time12 where
  hour : Nat
  minute : Nat
  pm : Bool
deriving DecidableEq, Repr

/-- The `convertTo24Hour` helper of `src/routes/patientBooking.js` (also in
`src/unnamed/part_012`), returning the minutes-since-midnight encoded by the
produced "HH:MM:00" string: hour 12 is mapped to 0 first, then 12 is added
for PM. -/
def convertTo24Hour (t : Time12) : Nat :=
  let h0 := if t.hour = 12 then 0 else t.hour
  let h := if t.pm then h0 + 12 else h0
  h * 60 + t.minute

def msPerDay : Int := 86400000

def msPerMinute : Int := 60000

/-- Start of the UTC calendar day containing instant `d`: the source takes
`appointmentDate.toISOString().split('T')[0]`. -/
def dayStart (d : Int) : Int := d - Int.emod d msPerDay

/-- The single instant the cutoff guards compare against: the stored date's
UTC day combined with the parsed 12-hour time string
(`new Date(dateString + 'T' + convertTo24Hour(time))`). -/
def appointmentInstant (date : Int) (t : Time12) : Int :=
  dayStart date + (convertTo24Hour t : Int) * msPerMinute

/-- Two hours in milliseconds.  The source computes
`hoursDifference = (appointmentDateTime - now) / 3600000` as a float and
rejects when `hoursDifference < 2`; for integer millisecond differences this
is equivalent to `diff < 7200000`. -/
def msCutoff : Int := 7200000

/-- Default reason strings used by the handlers. -/
def rescheduledByStaffMsg : String := "Rescheduled by staff"

def patientRequestedCancellationMsg : String := "Patient requested cancellation"

def patientRequestedRescheduleMsg : String := "Patient requested reschedule"

def cancelledByStaffMsg : String := "Cancelled by staff"

def cancelledByClinicStaffNote : String := "Cancelled by clinic staff"

/-- Embedded cancellation request (Appointment schema plus the
`previousStatus` field written by `src/unnamed/part_012`). -/
structure CancellationRequest where
  reqStatus : ReqStatus
  reason : String
  requestedAt : Option Int
  requestedBy : Option Nat
  previousStatus : Option Status
  reviewedAt : Option Int
  reviewedBy : Option Nat
  adminNotes : Option String
deriving DecidableEq, Repr

/-- Embedded reschedule request (Appointment schema). -/
structure RescheduleRequest where
  reqStatus : ReqStatus
  reason : String
  requestedAt : Option Int
  requestedBy : Option Nat
  preferredDate : Option Int
  preferredTime : Option Time12
  reviewedAt : Option Int
  reviewedBy : Option Nat
deriving DecidableEq, Repr

/-- Audit snapshot written whenever a reschedule is applied
(`rescheduledFrom` in the schema). -/
structure RescheduledFrom where
  originalDate : Option Int
  originalTime : Option Time12
  reason : String
deriving DecidableEq, Repr

/-- An Appointment document (the subset of schema fields read or written by
the lifecycle handlers).  `appointmentDate` and `appointmentTime` are
`Option` because the accept-reschedule handler of `src/unnamed/part_012`
assigns the request's possibly-null preferred slot into them. -/
structure Appointment where
  id : Nat
  doctorName : String
  appointmentDate : Option Int
  appointmentTime : Option Time12
  status : Status
  bookingSource : Source
  patient : Option Nat
  patientUserId : Option Nat
  confirmedBy : Option Nat
  staffNotes : Option String
  cancellationReason : Option String
  cancellationRequest : Option CancellationRequest
  rescheduleRequest : Option RescheduleRequest
  rescheduledFrom : Option RescheduledFrom
deriving DecidableEq, Repr

/-- A Patient document: the workflow fields of `src/models/Patient.js`
together with the no-show tracking fields the route handlers read and write
(`noShowCount`, `lastNoShowAt`, `appointmentLocked`; see the selects and
updates in `src/routes/appointments.js` and `src/unnamed/part_009`). -/
structure Patient where
  id : Nat
  status : PatientStatus
  noShowCount : Nat
  lastNoShowAt : Option Int
  appointmentLocked : Bool
  email : Option String
deriving DecidableEq, Repr

/-- The document store: appointment and patient collections. -/
structure ClinicState where
  appointments : List Appointment
  patients : List Patient
deriving DecidableEq, Repr

/-- Error responses: one tag per distinct 4xx return of the modelled
handlers. -/
inductive Err where
  | validationFailed
  | appointmentNotFound
  | patientNotFound
  | slotTaken
  | slotUnavailable
  | slotConfirmed
  | pendingAppointmentExists
  | dayNotAvailable
  | newSlotTaken
  | alreadyCancelled
  | alreadyCompleted
  | cancelledOrCompleted
  | cancellationAlreadyPending
  | rescheduleAlreadyPending
  | tooLate
  | bookingLocked
  | notCancellationPending
  | notPatientInitiated
  | noPendingReschedule
  | reasonRequired
  | requestedSlotTaken
deriving DecidableEq, Repr

/-- Handler response: success or a 4xx error. -/
inductive Resp where
  | ok
  | err (e : Err)
deriving DecidableEq, Repr

/-- Result of running a handler: the store state after all `save()` calls
that executed, together with the response sent. -/
structure Outcome where
  state : ClinicState
  resp : Resp
deriving DecidableEq, Repr

/-- Replace every element whose key equals the key of `a` by `a` (the
effect of `document.save()` on a collection). -/
def replaceBy {α : Type} (key : α → Nat) (l : List α) (a : α) : List α :=
  l.map fun b => if key b = key a then a else b

def saveApt (st : ClinicState) (a : Appointment) : ClinicState :=
  { st with appointments := replaceBy Appointment.id st.appointments a }

def savePatient (st : ClinicState) (p : Patient) : ClinicState :=
  { st with patients := replaceBy Patient.id st.patients p }

def addApt (st : ClinicState) (a : Appointment) : ClinicState :=
  { st with appointments := st.appointments ++ [a] }

def addPatient (st : ClinicState) (p : Patient) : ClinicState :=
  { st with patients := st.patients ++ [p] }

/-- `Appointment.findById`. -/
def findApt (st : ClinicState) (aptId : Nat) : Option Appointment :=
  st.appointments.find? fun a => a.id == aptId

/-- `Appointment.findOne` keyed by appointment and owning portal account
(the patient-facing handlers scope lookups by `patientUserId`). -/
def findAptByIdUser (st : ClinicState) (aptId uid : Nat) : Option Appointment :=
  st.appointments.find? fun a => a.id == aptId && a.patientUserId == some uid

/-- `Patient.findById`. -/
def findPatient (st : ClinicState) (pid : Nat) : Option Patient :=
  st.patients.find? fun p => p.id == pid

/-- `Patient.findOne` on contact email (portal booking looks patients up by
`contactInfo.email`). -/
def findPatientByEmail (st : ClinicState) (email : String) : Option Patient :=
  st.patients.find? fun p => p.email == some email

/-- Whether an embedded cancellation request is present and pending. -/
def pendingCancellation (a : Appointment) : Bool :=
  match a.cancellationRequest with
  | some r => r.reqStatus == .pending
  | none => false

/-- Whether an embedded reschedule request is present and pending. -/
def pendingReschedule (a : Appointment) : Bool :=
  match a.rescheduleRequest with
  | some r => r.reqStatus == .pending
  | none => false

/-! ## Slot-availability checks

Each definition is the `Appointment.findOne`/`find` query of the named
handler, restricted to the fields of the query. -/

/-- Conflict query of the staff booking route
(`src/routes/appointments.js`, `router.post('/')`): same doctor, date and
time with status in `scheduled, confirmed`. -/
def staffSlotTaken (appts : List Appointment) (doctorName : String)
    (date : Int) (time : Time12) : Bool :=
  appts.any fun a =>
    a.doctorName == doctorName && a.appointmentDate == some date &&
    a.appointmentTime == some time &&
    (a.status == .scheduled || a.status == .confirmed)

/-- Conflict query of the staff reschedule route
(`src/routes/appointments.js`, `router.patch('/:id/reschedule')`) and of the
patient reschedule request of `src/unnamed/part_012`: excludes the
appointment itself and matches status in
`scheduled, confirmed, reschedule_pending`. -/
def rescheduleConflict (appts : List Appointment) (selfId : Nat)
    (doctorName : String) (date : Int) (time : Time12) : Bool :=
  appts.any fun a =>
    !(a.id == selfId) && a.doctorName == doctorName &&
    a.appointmentDate == some date && a.appointmentTime == some time &&
    (a.status == .scheduled || a.status == .confirmed ||
      a.status == .reschedulePending)

/-- Slot query of the portal booking route in
`src/routes/patientBooking.js` (`POST /book-appointment`): any appointment
at the slot whose status is not `cancelled`. -/
def portalSlotTakenPB (appts : List Appointment) (doctorName : String)
    (date : Int) (time : Time12) : Bool :=
  appts.any fun a =>
    a.appointmentDate == some date && a.appointmentTime == some time &&
    a.doctorName == doctorName && !(a.status == .cancelled)

/-- Slot query of the portal booking route in `src/unnamed/part_012`
(`POST /book-appointment`): only a `confirmed` appointment blocks. -/
def portalSlotConfirmed12 (appts : List Appointment) (doctorName : String)
    (date : Int) (time : Time12) : Bool :=
  appts.any fun a =>
    a.appointmentDate == some date && a.appointmentTime == some time &&
    a.doctorName == doctorName && a.status == .confirmed

/-- Outstanding-booking query of `src/routes/patientBooking.js`: a future
appointment of the portal account in
`scheduled, confirmed, cancellation_pending, reschedule_pending`. -/
def hasPendingAppointment (appts : List Appointment) (uid : Nat)
    (now : Int) : Bool :=
  appts.any fun a =>
    a.patientUserId == some uid &&
    (a.status == .scheduled || a.status == .confirmed ||
      a.status == .cancellationPending || a.status == .reschedulePending) &&
    (match a.appointmentDate with
     | some d => now ≤ d
     | none => false)

/-! ## Staff routes (`src/routes/appointments.js`) -/

/-- Request body of `router.patch('/:id/status')`. -/
structure StatusReq where
  status : Status
  cancellationReason : Option String
  reason : Option String
  staffNotes : Option String
deriving DecidableEq, Repr

/-- The `body('status').isIn([...])` validator of the status route: the two
pending states are not valid targets. -/
def statusReqAllowed (s : Status) : Bool :=
  [Status.scheduled, Status.confirmed, Status.completed, Status.cancelled,
    Status.noShow, Status.rescheduled].contains s

/-- The `confirmed` branch of the status route: set status and
`confirmedBy`; flip the patient from `New` to `Active`; if the appointment
was `reschedule_pending`, mark its reschedule request rejected. -/
def confirmBranch (st : ClinicState) (apt : Appointment) (userId : Nat)
    (now : Int) : Appointment × ClinicState :=
  let a0 := { apt with status := Status.confirmed, confirmedBy := some userId }
  let stP :=
    match apt.patient with
    | some pid =>
      match findPatient st pid with
      | some p =>
        if p.status = .new then savePatient st { p with status := .active }
        else st
      | none => st
    | none => st
  let a1 :=
    if apt.status = .reschedulePending then
      match a0.rescheduleRequest with
      | some r =>
        { a0 with rescheduleRequest := some { r with
            reqStatus := .rejected, reviewedAt := some now,
            reviewedBy := some userId } }
      | none => a0
    else a0
  (a1, stP)

/-- The `cancelled` branch of the status route: cancel immediately, record
the reason if given, and for portal bookings synthesize an
already-approved cancellation record. -/
def cancelBranch (apt : Appointment) (req : StatusReq) (userId : Nat)
    (now : Int) : Appointment :=
  let a0 := { apt with status := Status.cancelled }
  let a1 :=
    match req.cancellationReason, req.reason with
    | some c, _ => { a0 with cancellationReason := some c }
    | none, some r => { a0 with cancellationReason := some r }
    | none, none => a0
  if apt.bookingSource = .patientPortal ∧ apt.patientUserId.isSome then
    { a1 with cancellationRequest := some {
        reqStatus := .approved,
        reason := (req.cancellationReason.orElse fun _ => req.reason).getD
          cancelledByStaffMsg,
        requestedAt := some now,
        requestedBy := none,
        previousStatus := none,
        reviewedAt := some now,
        reviewedBy := some userId,
        adminNotes := some cancelledByClinicStaffNote } }
  else a1

/-- No-show strike tracking of the status route: when the request
transitions into `no-show` from another status, increment the linked
patient's counter, stamp `lastNoShowAt`, and lock booking at three
strikes. -/
def noShowTrack (st : ClinicState) (apt : Appointment) (req : StatusReq)
    (now : Int) : ClinicState :=
  if req.status = .noShow ∧ apt.status ≠ .noShow then
    match apt.patient with
    | some pid =>
      match findPatient st pid with
      | some p =>
        let c := p.noShowCount + 1
        savePatient st { p with
          noShowCount := c,
          lastNoShowAt := some now,
          appointmentLocked := if 3 ≤ c then true else p.appointmentLocked }
      | none => st
    | none => st
  else st

/-- `router.patch('/:id/status')` of `src/routes/appointments.js`. -/
def updateStatus (st : ClinicState) (aptId : Nat) (req : StatusReq)
    (userId : Nat) (now : Int) : Outcome :=
  if ¬ statusReqAllowed req.status then ⟨st, .err .validationFailed⟩
  else
    match findApt st aptId with
    | none => ⟨st, .err .appointmentNotFound⟩
    | some apt =>
      let pr :=
        if req.status = .confirmed then confirmBranch st apt userId now
        else if req.status = .cancelled then
          (cancelBranch apt req userId now, st)
        else ({ apt with status := req.status }, st)
      let apt2 :=
        match req.staffNotes with
        | some n => { pr.1 with staffNotes := some n }
        | none => pr.1
      ⟨saveApt (noShowTrack pr.2 apt req now) apt2, .ok⟩

/-- `router.post('/')` of `src/routes/appointments.js` (staff booking),
restricted to the guards and fields the lifecycle claims concern: patient
lookup, the slot-conflict check, and creation of a `scheduled`
staff-sourced appointment.  (The doctor-type/patient-type match and display
field derivation are pass-through validation that rejects before any
mutation.) -/
def createAppointment (st : ClinicState) (patientId : Nat)
    (doctorName : String) (date : Int) (time : Time12) (newId : Nat) :
    Outcome :=
  match findPatient st patientId with
  | none => ⟨st, .err .patientNotFound⟩
  | some patient =>
    if staffSlotTaken st.appointments doctorName date time then
      ⟨st, .err .slotTaken⟩
    else
      addAptOk st
        { id := newId, doctorName := doctorName,
          appointmentDate := some date, appointmentTime := some time,
          status := .scheduled, bookingSource := .staff,
          patient := some patient.id, patientUserId := none,
          confirmedBy := none, staffNotes := none,
          cancellationReason := none, cancellationRequest := none,
          rescheduleRequest := none, rescheduledFrom := none }
where
  addAptOk (st : ClinicState) (a : Appointment) : Outcome :=
    ⟨addApt st a, .ok⟩

/-- Day hours of one weekday in the persisted clinic settings
(`src/models/Settings.js`); the reschedule route only reads `enabled`. -/
structure DayHours where
  enabled : Bool
  start : String
  stop : String
deriving DecidableEq, Repr

/-- A doctor's published weekly hours. -/
structure WeeklyHours where
  sunday : DayHours
  monday : DayHours
  tuesday : DayHours
  wednesday : DayHours
  thursday : DayHours
  friday : DayHours
  saturday : DayHours
deriving DecidableEq, Repr

/-- Lookup by JavaScript `getDay()` weekday number (0 = Sunday). -/
def WeeklyHours.forDay (h : WeeklyHours) (d : Nat) : DayHours :=
  match d with
  | 0 => h.sunday
  | 1 => h.monday
  | 2 => h.tuesday
  | 3 => h.wednesday
  | 4 => h.thursday
  | 5 => h.friday
  | _ => h.saturday

/-- Clinic settings document (`Settings.getSettings()`). -/
structure Settings where
  obgyneDoctorName : String
  obgyneHours : WeeklyHours
  pediatricianName : String
  pediatricianHours : WeeklyHours
deriving DecidableEq, Repr

/-- Weekday of an instant (epoch day 0 was a Thursday, `getDay() = 4`). -/
def weekdayOf (t : Int) : Nat :=
  (Int.emod (Int.ediv t msPerDay + 4) 7).toNat

/-- The day-availability check of the reschedule route: the doctor name is
matched against the settings, and if a schedule is found whose weekday
entry is disabled the reschedule is rejected (no match falls through). -/
def dayBlockedFor (settings : Settings) (doctorName : String)
    (newDate : Int) : Bool :=
  let doctorSchedule : Option DayHours :=
    if settings.obgyneDoctorName == doctorName then
      some (settings.obgyneHours.forDay (weekdayOf newDate))
    else if settings.pediatricianName == doctorName then
      some (settings.pediatricianHours.forDay (weekdayOf newDate))
    else none
  match doctorSchedule with
  | some h => !h.enabled
  | none => false

/-- The appointment written by the pending branch of the reschedule route:
`rescheduledFrom` snapshots the pre-reschedule slot, a pending reschedule
request carries the proposed slot, the displayed date/time are set to the
proposed values, and the status becomes `reschedule_pending`. -/
def staffReschedulePendingApt (apt : Appointment) (newDate : Int)
    (newTime : Time12) (reason : Option String) (now : Int) :
    Appointment :=
  { apt with
    rescheduledFrom := some {
      originalDate := apt.appointmentDate,
      originalTime := apt.appointmentTime,
      reason := reason.getD rescheduledByStaffMsg },
    rescheduleRequest := some {
      reqStatus := .pending,
      reason := reason.getD rescheduledByStaffMsg,
      requestedAt := some now,
      requestedBy := none,
      preferredDate := some newDate,
      preferredTime := some newTime,
      reviewedAt := none,
      reviewedBy := none },
    appointmentDate := some newDate,
    appointmentTime := some newTime,
    status := Status.reschedulePending }

/-- `router.patch('/:id/reschedule')` of `src/routes/appointments.js`:
validate the doctor's weekday hours, check the conflict query, snapshot the
old slot into `rescheduledFrom`, then either apply directly (staff
bookings, and portal bookings already in `reschedule_pending`, which become
`confirmed`) or store a pending reschedule request and move the portal
appointment to `reschedule_pending`. -/
def staffReschedule (st : ClinicState) (aptId : Nat) (newDate : Int)
    (newTime : Time12) (reason : Option String) (userId : Nat)
    (settings : Settings) (now : Int) : Outcome :=
  match findApt st aptId with
  | none => ⟨st, .err .appointmentNotFound⟩
  | some apt =>
    if dayBlockedFor settings apt.doctorName newDate then
      ⟨st, .err .dayNotAvailable⟩
    else if rescheduleConflict st.appointments apt.id apt.doctorName newDate
        newTime then
      ⟨st, .err .newSlotTaken⟩
    else
      let a0 := { apt with rescheduledFrom := some {
        originalDate := apt.appointmentDate,
        originalTime := apt.appointmentTime,
        reason := reason.getD rescheduledByStaffMsg } }
      if apt.bookingSource = .patientPortal ∧ apt.patientUserId.isSome then
        if apt.status = .reschedulePending then
          let a1 := { a0 with
            appointmentDate := some newDate,
            appointmentTime := some newTime,
            status := Status.confirmed,
            rescheduleRequest := a0.rescheduleRequest.map (fun r =>
              { r with
                reqStatus := .approved,
                reviewedAt := some now,
                reviewedBy := some userId }) }
          ⟨saveApt st a1, .ok⟩
        else
          ⟨saveApt st
            (staffReschedulePendingApt apt newDate newTime reason now),
            .ok⟩
      else
        let a1 := { a0 with
          appointmentDate := some newDate,
          appointmentTime := some newTime,
          status := Status.confirmed }
        ⟨saveApt st a1, .ok⟩

/-- `router.patch('/:id/reject-cancellation')` of
`src/routes/appointments.js`: restore the status stored on the request
(defaulting to `confirmed`) and mark the request rejected. -/
def rejectCancellation (st : ClinicState) (aptId : Nat) (userId : Nat)
    (adminNotes : Option String) (now : Int) : Outcome :=
  match findApt st aptId with
  | none => ⟨st, .err .appointmentNotFound⟩
  | some apt =>
    if ¬ apt.status = .cancellationPending then
      ⟨st, .err .notCancellationPending⟩
    else
      match apt.cancellationRequest with
      | none => ⟨st, .err .notPatientInitiated⟩
      | some cr =>
        if cr.requestedBy.isNone then ⟨st, .err .notPatientInitiated⟩
        else
          let previousStatus := cr.previousStatus.getD .confirmed
          let a := { apt with
            status := previousStatus,
            cancellationRequest := some { cr with
              reqStatus := .rejected,
              reviewedAt := some now,
              reviewedBy := some userId,
              adminNotes :=
                match adminNotes with
                | some n => some n
                | none => cr.adminNotes } }
          ⟨saveApt st a, .ok⟩

/-! ## Portal routes -/

/-- A portal appointment document as created by the booking handlers
(`status: 'scheduled'`, `bookingSource: 'patient_portal'`). -/
def mkPortalAppointment (newId : Nat) (uid pid : Nat) (doctorName : String)
    (date : Int) (time : Time12) : Appointment :=
  { id := newId, doctorName := doctorName,
    appointmentDate := some date, appointmentTime := some time,
    status := .scheduled, bookingSource := .patientPortal,
    patient := some pid, patientUserId := some uid,
    confirmedBy := none, staffNotes := none,
    cancellationReason := none, cancellationRequest := none,
    rescheduleRequest := none, rescheduledFrom := none }

/-- A patient record freshly created during portal booking
(`status: 'New'`, counters at their defaults). -/
def freshPortalPatient (newPid : Nat) (email : String) : Patient :=
  { id := newPid, status := .new, noShowCount := 0, lastNoShowAt := none,
    appointmentLocked := false, email := some email }

/-- `POST /book-appointment` of `src/routes/patientBooking.js`: reject if
any non-cancelled appointment holds the slot; find or create the patient
record keyed by the account's email; reject if the account already has an
outstanding future appointment; otherwise create the scheduled portal
appointment.  (`uid`/`email` are the authenticated account's identity;
doctor-name validation and dependent handling reject before any
mutation and are elided.) -/
def portalBookPB (st : ClinicState) (uid : Nat) (email : String)
    (doctorName : String) (date : Int) (time : Time12) (newId newPid : Nat)
    (now : Int) : Outcome :=
  if portalSlotTakenPB st.appointments doctorName date time then
    ⟨st, .err .slotUnavailable⟩
  else
    let pr : ClinicState × Patient :=
      match findPatientByEmail st email with
      | some p => (st, p)
      | none =>
        let p := freshPortalPatient newPid email
        (addPatient st p, p)
    if hasPendingAppointment pr.1.appointments uid now then
      ⟨pr.1, .err .pendingAppointmentExists⟩
    else
      ⟨addApt pr.1 (mkPortalAppointment newId uid pr.2.id doctorName date time),
        .ok⟩

/-- `POST /book-appointment` of `src/unnamed/part_012`: reject only if a
`confirmed` appointment holds the slot; find or create the patient record
(reviving an `Inactive` record to `New`, a persisted write); after that
patient-record work, reject if the record is appointment-locked; otherwise
create the scheduled portal appointment. -/
def portalBook12 (st : ClinicState) (uid : Nat) (email : String)
    (doctorName : String) (date : Int) (time : Time12)
    (newId newPid : Nat) : Outcome :=
  if portalSlotConfirmed12 st.appointments doctorName date time then
    ⟨st, .err .slotConfirmed⟩
  else
    let pr : ClinicState × Patient :=
      match findPatientByEmail st email with
      | some p =>
        if p.status = PatientStatus.inactive then
          let q := { p with status := PatientStatus.new }
          (savePatient st q, q)
        else (st, p)
      | none =>
        let p := freshPortalPatient newPid email
        (addPatient st p, p)
    if pr.2.appointmentLocked then ⟨pr.1, .err .bookingLocked⟩
    else
      ⟨addApt pr.1 (mkPortalAppointment newId uid pr.2.id doctorName date time),
        .ok⟩

/-- `POST /request-cancellation/:appointmentId` of
`src/routes/patientBooking.js`: guards (already cancelled, completed,
pending request, 2-hour cutoff) then store a pending cancellation request
(without any `previousStatus` field) and move the appointment to
`cancellation_pending`. -/
def requestCancellationPB (st : ClinicState) (aptId uid : Nat)
    (reason : Option String) (now : Int) : Outcome :=
  match findAptByIdUser st aptId uid with
  | none => ⟨st, .err .appointmentNotFound⟩
  | some apt =>
    if apt.status = .cancelled then ⟨st, .err .alreadyCancelled⟩
    else if apt.status = .completed then ⟨st, .err .alreadyCompleted⟩
    else if pendingCancellation apt then
      ⟨st, .err .cancellationAlreadyPending⟩
    else if appointmentInstant (apt.appointmentDate.getD 0)
        (apt.appointmentTime.getD ⟨12, 0, false⟩) - now < msCutoff then
      ⟨st, .err .tooLate⟩
    else
      let a := { apt with
        cancellationRequest := some {
          reqStatus := .pending,
          reason := reason.getD patientRequestedCancellationMsg,
          requestedAt := some now,
          requestedBy := some uid,
          previousStatus := none,
          reviewedAt := none,
          reviewedBy := none,
          adminNotes := none },
        status := Status.cancellationPending }
      ⟨saveApt st a, .ok⟩

/-- `POST /request-reschedule/:appointmentId` of
`src/routes/patientBooking.js`: guards (cancelled or completed, pending
request, 2-hour cutoff) then store a pending reschedule request with the
optional preferred slot and move the appointment to `reschedule_pending`. -/
def requestReschedulePB (st : ClinicState) (aptId uid : Nat)
    (reason : Option String) (preferredDate : Option Int)
    (preferredTime : Option Time12) (now : Int) : Outcome :=
  match findAptByIdUser st aptId uid with
  | none => ⟨st, .err .appointmentNotFound⟩
  | some apt =>
    if apt.status = .cancelled ∨ apt.status = .completed then
      ⟨st, .err .cancelledOrCompleted⟩
    else if pendingReschedule apt then
      ⟨st, .err .rescheduleAlreadyPending⟩
    else if appointmentInstant (apt.appointmentDate.getD 0)
        (apt.appointmentTime.getD ⟨12, 0, false⟩) - now < msCutoff then
      ⟨st, .err .tooLate⟩
    else
      let a := { apt with
        rescheduleRequest := some {
          reqStatus := .pending,
          reason := reason.getD patientRequestedRescheduleMsg,
          requestedAt := some now,
          requestedBy := some uid,
          preferredDate := preferredDate,
          preferredTime := preferredTime,
          reviewedAt := none,
          reviewedBy := none },
        status := Status.reschedulePending }
      ⟨saveApt st a, .ok⟩

/-- `POST /request-cancellation/:appointmentId` of
`src/unnamed/part_012`: requires a reason (the source also rejects an
all-whitespace reason and stores it trimmed; that trimming is elided
here); guards (cancelled, already pending, completed, 2-hour cutoff);
then sets the status to `cancellation_pending` FIRST and only afterwards
builds the request record, so the `previousStatus` it stores reads the
already-overwritten status. -/
def requestCancellation12 (st : ClinicState) (aptId uid : Nat)
    (reason : Option String) (now : Int) : Outcome :=
  match reason with
  | none => ⟨st, .err .reasonRequired⟩
  | some r =>
      match findAptByIdUser st aptId uid with
      | none => ⟨st, .err .appointmentNotFound⟩
      | some apt =>
        if apt.status = .cancelled then ⟨st, .err .alreadyCancelled⟩
        else if apt.status = .cancellationPending then
          ⟨st, .err .cancellationAlreadyPending⟩
        else if apt.status = .completed then ⟨st, .err .alreadyCompleted⟩
        else if appointmentInstant (apt.appointmentDate.getD 0)
            (apt.appointmentTime.getD ⟨12, 0, false⟩) - now < msCutoff then
          ⟨st, .err .tooLate⟩
        else
          let a1 := { apt with status := Status.cancellationPending }
          let a2 := { a1 with
            cancellationRequest := some {
              reqStatus := .pending,
              reason := r,
              requestedAt := some now,
              requestedBy := some uid,
              previousStatus := some a1.status,
              reviewedAt := none,
              reviewedBy := none,
              adminNotes := none } }
          ⟨saveApt st a2, .ok⟩

/-- `POST /request-reschedule/:appointmentId` of `src/unnamed/part_012`:
guard (cancelled or completed); when both a preferred date and time are
supplied, run the reschedule conflict query against them; then store a
pending reschedule request (the preferred date is only recorded when the
time was supplied too, mirroring the `parsedDate` flow) and move the
appointment to `reschedule_pending`. -/
def requestReschedule12 (st : ClinicState) (aptId uid : Nat)
    (reason : Option String) (dateToUse : Option Int)
    (timeToUse : Option Time12) (now : Int) : Outcome :=
  match findAptByIdUser st aptId uid with
  | none => ⟨st, .err .appointmentNotFound⟩
  | some apt =>
    if apt.status = .cancelled ∨ apt.status = .completed then
      ⟨st, .err .cancelledOrCompleted⟩
    else
      let conflict :=
        match dateToUse, timeToUse with
        | some d, some t =>
          rescheduleConflict st.appointments apt.id apt.doctorName d t
        | _, _ => false
      if conflict then ⟨st, .err .requestedSlotTaken⟩
      else
        let parsedDate :=
          match dateToUse, timeToUse with
          | some d, some _ => some d
          | _, _ => none
        let a := { apt with
          rescheduleRequest := some {
            reqStatus := .pending,
            reason := reason.getD patientRequestedRescheduleMsg,
            requestedAt := some now,
            requestedBy := some uid,
            preferredDate := parsedDate,
            preferredTime := timeToUse,
            reviewedAt := none,
            reviewedBy := none },
          status := Status.reschedulePending }
        ⟨saveApt st a, .ok⟩

/-- `POST /accept-reschedule/:appointmentId` of `src/unnamed/part_012`:
requires a pending reschedule request, then unconditionally assigns the
stored preferred date and time into the appointment, confirms it, and marks
the request approved. -/
def acceptReschedule12 (st : ClinicState) (aptId uid : Nat) (now : Int) :
    Outcome :=
  match findAptByIdUser st aptId uid with
  | none => ⟨st, .err .appointmentNotFound⟩
  | some apt =>
    match apt.rescheduleRequest with
    | none => ⟨st, .err .noPendingReschedule⟩
    | some r =>
      if ¬ r.reqStatus = .pending then ⟨st, .err .noPendingReschedule⟩
      else
        let a := { apt with
          appointmentDate := r.preferredDate,
          appointmentTime := r.preferredTime,
          status := Status.confirmed,
          rescheduleRequest := some { r with
            reqStatus := .approved,
            reviewedAt := some now } }
        ⟨saveApt st a, .ok⟩

/-- `router.patch('/:id/unlock-appointments')` of `src/unnamed/part_009`:
clear the lock flag and reset the no-show counter together. -/
def unlockAppointments (st : ClinicState) (pid : Nat) : Outcome :=
  match findPatient st pid with
  | none => ⟨st, .err .patientNotFound⟩
  | some p =>
    ⟨savePatient st { p with appointmentLocked := false, noShowCount := 0 },
      .ok⟩

/-! ## Concrete fixtures used by counterexamples and witnesses -/

def drA : String := "Dr. Maria Sarah L. Manaloto"

def drB : String := "Dr. Shara Laine S. Vino"

def t9 : Time12 := ⟨9, 0, false⟩

def t10 : Time12 := ⟨10, 30, false⟩

/-- A plain scheduled portal appointment at (drA, epoch day 0, 9:00 AM),
owned by portal account 7. -/
def baseApt : Appointment :=
  { id := 0, doctorName := drA, appointmentDate := some 0,
    appointmentTime := some t9, status := .scheduled,
    bookingSource := .patientPortal, patient := none,
    patientUserId := some 7, confirmedBy := none, staffNotes := none,
    cancellationReason := none, cancellationRequest := none,
    rescheduleRequest := none, rescheduledFrom := none }

def confirmReq : StatusReq := ⟨.confirmed, none, none, none⟩

def noShowReq : StatusReq := ⟨.noShow, none, none, none⟩

def cancelReq : StatusReq := ⟨.cancelled, none, none, none⟩

def allOn : DayHours := ⟨true, "08:00", "17:00"⟩

def wkOn : WeeklyHours := ⟨allOn, allOn, allOn, allOn, allOn, allOn, allOn⟩

def settings0 : Settings := ⟨drA, wkOn, drB, wkOn⟩

def emailX : String := "x@y.z"

/-- Two appointments at the same (doctor, date, time) slot: appointment 0
is already confirmed, appointment 1 is scheduled. -/
def stC1 : ClinicState :=
  ⟨[{ baseApt with id := 0, status := .confirmed },
    { baseApt with id := 1 }], []⟩

/-- One completed appointment occupying the (drA, day 0, 9:00 AM) slot. -/
def stC2 : ClinicState := ⟨[{ baseApt with status := .completed }], []⟩

/-- One staff no-show marking request: the state after
`PATCH /:id/status` with body status `no-show`. -/
def noShowStep (uid : Nat) (now : Int) (st : ClinicState) (aptId : Nat) :
    ClinicState :=
  (updateStatus st aptId noShowReq uid now).state

/-- A sequence of staff no-show markings, applied in order. -/
def noShowRun (uid : Nat) (now : Int) (st : ClinicState)
    (ids : List Nat) : ClinicState :=
  ids.foldl (noShowStep uid now) st

/-- A run of no-show requests in which every request transitions one of
patient `pid`'s appointments into `no-show` from a status other than
`no-show` (the shape of run claim C3 quantifies over). -/
def ValidNoShowRun (pid uid : Nat) (now : Int) :
    ClinicState → List Nat → Prop
  | _, [] => True
  | st, i :: rest =>
    (∃ apt, findApt st i = some apt ∧ ¬apt.status = .noShow ∧
      apt.patient = some pid ∧ (findPatient st pid).isSome = true) ∧
    ValidNoShowRun pid uid now (noShowStep uid now st i) rest

/-- Patient 3 with two scheduled appointments (ids 0 and 1). -/
def stC3 : ClinicState :=
  ⟨[{ baseApt with patient := some 3 },
    { baseApt with id := 1, patient := some 3 }],
   [⟨3, .active, 0, none, false, none⟩]⟩

/-- Patient 3 with one appointment already marked `no-show`. -/
def stNS : ClinicState :=
  ⟨[{ baseApt with patient := some 3, status := .noShow }],
   [⟨3, .active, 1, some 0, false, none⟩]⟩

/-- The lock invariant of claim C4: a patient is appointment-locked
exactly when they have accumulated at least three no-show strikes. -/
def LockInv (p : Patient) : Prop :=
  p.appointmentLocked = true ↔ 3 ≤ p.noShowCount

/-- Patient 3 at two strikes with one scheduled appointment. -/
def stC4 : ClinicState :=
  ⟨[{ baseApt with patient := some 3 }],
   [⟨3, .active, 2, none, false, none⟩]⟩

/-- A single scheduled portal appointment owned by account 7. -/
def stOne : ClinicState := ⟨[baseApt], []⟩

/-- A single cancelled portal appointment. -/
def stCan : ClinicState := ⟨[{ baseApt with status := .cancelled }], []⟩

/-- A locked, inactive patient record with three strikes, keyed by the
portal account's email; no appointments. -/
def stC8 : ClinicState :=
  ⟨[], [⟨3, .inactive, 3, none, true, some emailX⟩]⟩

/-- A portal appointment whose pending reschedule request was stored
without a proposed slot. -/
def stPend : ClinicState :=
  ⟨[{ baseApt with
      status := .reschedulePending,
      rescheduleRequest := some
        ⟨.pending, patientRequestedRescheduleMsg, some 0, some 7,
          none, none, none, none⟩ }], []⟩

def reasonSick : String := "sick"

/-- A status-update request whose target is not in the route's validator
list. -/
def badReq : StatusReq := ⟨.cancellationPending, none, none, none⟩

/-! ## Helper lemmas -/

theorem find?_replaceBy {α : Type} (key : α → Nat) (l : List α) (a : α)
    (p : α → Bool) (ha : p a = true)
    (hother : ∀ b, ¬ key b = key a → p b = false)
    (hid : ∃ b ∈ l, key b = key a) :
    (replaceBy key l a).find? p = some a := by
  induction l with
  | nil => simp at hid
  | cons c l ih =>
    by_cases h : key c = key a
    · simp only [replaceBy, List.map_cons, if_pos h]
      exact List.find?_cons_of_pos _ ha
    · have hpc : p c = false := hother c h
      simp only [replaceBy, List.map_cons, if_neg h]
      rw [List.find?_cons_of_neg _ (by simp [hpc])]
      apply ih
      rcases hid with ⟨b, hb, hkb⟩
      rcases List.mem_cons.mp hb with rfl | hb2
      · exact absurd hkb h
      · exact ⟨b, hb2, hkb⟩

theorem findApt_mem {st : ClinicState} {i : Nat} {apt : Appointment}
    (h : findApt st i = some apt) :
    apt ∈ st.appointments ∧ apt.id = i := by
  refine ⟨List.mem_of_find?_eq_some h, ?_⟩
  have := List.find?_some h
  simpa using this

theorem findAptByIdUser_mem {st : ClinicState} {i uid : Nat}
    {apt : Appointment} (h : findAptByIdUser st i uid = some apt) :
    apt ∈ st.appointments ∧ apt.id = i ∧ apt.patientUserId = some uid := by
  refine ⟨List.mem_of_find?_eq_some h, ?_⟩
  have := List.find?_some h
  simp only [Bool.and_eq_true, beq_iff_eq] at this
  exact this

theorem findPatient_mem {st : ClinicState} {i : Nat} {p : Patient}
    (h : findPatient st i = some p) :
    p ∈ st.patients ∧ p.id = i := by
  refine ⟨List.mem_of_find?_eq_some h, ?_⟩
  have := List.find?_some h
  simpa using this

theorem findPatientByEmail_mem {st : ClinicState} {email : String}
    {p : Patient} (h : findPatientByEmail st email = some p) :
    p ∈ st.patients :=
  List.mem_of_find?_eq_some h

theorem findApt_saveApt_self (st : ClinicState) (a : Appointment)
    (hid : ∃ b ∈ st.appointments, b.id = a.id) :
    findApt (saveApt st a) a.id = some a := by
  unfold findApt saveApt
  apply find?_replaceBy
  · simp
  · intro b hb
    simpa using hb
  · exact hid

theorem findAptByIdUser_saveApt_self (st : ClinicState) (a : Appointment)
    (uid : Nat) (hu : a.patientUserId = some uid)
    (hid : ∃ b ∈ st.appointments, b.id = a.id) :
    findAptByIdUser (saveApt st a) a.id uid = some a := by
  unfold findAptByIdUser saveApt
  apply find?_replaceBy
  · simp [hu]
  · intro b hb
    simp [hb]
  · exact hid

theorem findApt_saveApt_self_at (st : ClinicState) (a : Appointment)
    (i : Nat) (hia : a.id = i)
    (hid : ∃ b ∈ st.appointments, b.id = a.id) :
    findApt (saveApt st a) i = some a := by
  subst hia
  exact findApt_saveApt_self st a hid

theorem findPatient_savePatient_self (st : ClinicState) (q : Patient)
    (hid : ∃ p ∈ st.patients, p.id = q.id) :
    findPatient (savePatient st q) q.id = some q := by
  unfold findPatient savePatient
  apply find?_replaceBy
  · simp
  · intro b hb
    simpa using hb
  · exact hid

theorem saveApt_patients (st : ClinicState) (a : Appointment) :
    (saveApt st a).patients = st.patients := rfl

theorem savePatient_appointments (st : ClinicState) (p : Patient) :
    (savePatient st p).appointments = st.appointments := rfl

/-! Rejection paths of most handlers return before any `save()`: the
outcome is either a success or carries the unchanged store. -/

theorem updateStatus_ok_or_unchanged (st : ClinicState) (aptId : Nat)
    (req : StatusReq) (userId : Nat) (now : Int) :
    (updateStatus st aptId req userId now).resp = .ok ∨
    (updateStatus st aptId req userId now).state = st := by
  unfold updateStatus
  repeat' split
  all_goals simp

theorem createAppointment_ok_or_unchanged (st : ClinicState)
    (patientId : Nat) (doctorName : String) (date : Int) (time : Time12)
    (newId : Nat) :
    (createAppointment st patientId doctorName date time newId).resp = .ok ∨
    (createAppointment st patientId doctorName date time newId).state = st
    := by
  unfold createAppointment
  split
  · exact Or.inr rfl
  · split
    · exact Or.inr rfl
    · exact Or.inl rfl

theorem staffReschedule_ok_or_unchanged (st : ClinicState) (aptId : Nat)
    (newDate : Int) (newTime : Time12) (reason : Option String)
    (userId : Nat) (settings : Settings) (now : Int) :
    (staffReschedule st aptId newDate newTime reason userId settings
      now).resp = .ok ∨
    (staffReschedule st aptId newDate newTime reason userId settings
      now).state = st := by
  unfold staffReschedule
  repeat' split
  all_goals simp

theorem rejectCancellation_ok_or_unchanged (st : ClinicState)
    (aptId userId : Nat) (adminNotes : Option String) (now : Int) :
    (rejectCancellation st aptId userId adminNotes now).resp = .ok ∨
    (rejectCancellation st aptId userId adminNotes now).state = st := by
  unfold rejectCancellation
  split
  · exact Or.inr rfl
  · split
    · exact Or.inr rfl
    · split
      · exact Or.inr rfl
      · split
        · exact Or.inr rfl
        · exact Or.inl rfl

theorem requestCancellationPB_ok_or_unchanged (st : ClinicState)
    (aptId uid : Nat) (reason : Option String) (now : Int) :
    (requestCancellationPB st aptId uid reason now).resp = .ok ∨
    (requestCancellationPB st aptId uid reason now).state = st := by
  unfold requestCancellationPB
  repeat' split
  all_goals simp

theorem requestReschedulePB_ok_or_unchanged (st : ClinicState)
    (aptId uid : Nat) (reason : Option String)
    (preferredDate : Option Int) (preferredTime : Option Time12)
    (now : Int) :
    (requestReschedulePB st aptId uid reason preferredDate preferredTime
      now).resp = .ok ∨
    (requestReschedulePB st aptId uid reason preferredDate preferredTime
      now).state = st := by
  unfold requestReschedulePB
  split
  · exact Or.inr rfl
  · split
    · exact Or.inr rfl
    · split
      · exact Or.inr rfl
      · split
        · exact Or.inr rfl
        · exact Or.inl rfl

theorem requestCancellation12_ok_or_unchanged (st : ClinicState)
    (aptId uid : Nat) (reason : Option String) (now : Int) :
    (requestCancellation12 st aptId uid reason now).resp = .ok ∨
    (requestCancellation12 st aptId uid reason now).state = st := by
  unfold requestCancellation12
  repeat' split
  all_goals simp

theorem requestReschedule12_ok_or_unchanged (st : ClinicState)
    (aptId uid : Nat) (reason : Option String) (dateToUse : Option Int)
    (timeToUse : Option Time12) (now : Int) :
    (requestReschedule12 st aptId uid reason dateToUse timeToUse
      now).resp = .ok ∨
    (requestReschedule12 st aptId uid reason dateToUse timeToUse
      now).state = st := by
  unfold requestReschedule12
  repeat' split
  all_goals try simp
  all_goals repeat' split
  all_goals simp

theorem acceptReschedule12_ok_or_unchanged (st : ClinicState)
    (aptId uid : Nat) (now : Int) :
    (acceptReschedule12 st aptId uid now).resp = .ok ∨
    (acceptReschedule12 st aptId uid now).state = st := by
  unfold acceptReschedule12
  repeat' split
  all_goals simp

theorem unlockAppointments_ok_or_unchanged (st : ClinicState) (pid : Nat) :
    (unlockAppointments st pid).resp = .ok ∨
    (unlockAppointments st pid).state = st := by
  unfold unlockAppointments
  split
  · exact Or.inr rfl
  · exact Or.inl rfl

/-- The part_012 booking handler never writes to the appointment
collection on a rejection (the patient collection is another matter, see
the C8 analysis). -/
theorem portalBook12_err_appointments (st : ClinicState) (uid : Nat)
    (email doctorName : String) (date : Int) (time : Time12)
    (newId newPid : Nat) :
    (portalBook12 st uid email doctorName date time newId newPid).resp
      = .ok ∨
    (portalBook12 st uid email doctorName date time newId
      newPid).state.appointments = st.appointments := by
  unfold portalBook12
  repeat' split
  all_goals simp only [savePatient, addPatient, addApt, freshPortalPatient]
  all_goals first
  | (split <;> simp)
  | simp

/-! Branch-behavior lemmas for the status-update route. -/

theorem confirmBranch_fst (st : ClinicState) (apt : Appointment)
    (userId : Nat) (now : Int) :
    (confirmBranch st apt userId now).1.status = .confirmed ∧
    (confirmBranch st apt userId now).1.id = apt.id := by
  unfold confirmBranch
  repeat' split
  all_goals try simp
  all_goals (cases apt.rescheduleRequest <;> simp)

theorem confirmBranch_snd_appointments (st : ClinicState)
    (apt : Appointment) (userId : Nat) (now : Int) :
    (confirmBranch st apt userId now).2.appointments = st.appointments := by
  unfold confirmBranch
  repeat' split
  all_goals simp [savePatient]

theorem cancelBranch_status (apt : Appointment) (req : StatusReq)
    (userId : Nat) (now : Int) :
    (cancelBranch apt req userId now).status = .cancelled ∧
    (cancelBranch apt req userId now).id = apt.id := by
  unfold cancelBranch
  repeat' split
  all_goals simp

theorem noShowTrack_appointments (st : ClinicState) (apt : Appointment)
    (req : StatusReq) (now : Int) :
    (noShowTrack st apt req now).appointments = st.appointments := by
  unfold noShowTrack
  repeat' split
  all_goals simp [savePatient]

/-- On any found appointment, a status-update request with an allowed
target status succeeds and persists exactly that status on the
appointment. -/
theorem updateStatus_sets_status (st : ClinicState) (aptId : Nat)
    (req : StatusReq) (userId : Nat) (now : Int) (apt : Appointment)
    (hfind : findApt st aptId = some apt)
    (hallowed : statusReqAllowed req.status = true) :
    (updateStatus st aptId req userId now).resp = .ok ∧
    ∃ a, findApt (updateStatus st aptId req userId now).state aptId
        = some a ∧ a.status = req.status := by
  obtain ⟨hmem, hid⟩ := findApt_mem hfind
  unfold updateStatus
  rw [hfind]
  simp only [hallowed, not_true, if_neg, ite_false, not_false_iff]
  constructor
  · trivial
  · set pr :=
      if req.status = .confirmed then confirmBranch st apt userId now
      else if req.status = .cancelled then
        (cancelBranch apt req userId now, st)
      else ({ apt with status := req.status }, st) with hpr
    have hpr1 : pr.1.status = req.status ∧ pr.1.id = apt.id := by
      rw [hpr]
      split
      · rename_i hc
        rw [hc]
        exact confirmBranch_fst st apt userId now
      · split
        · rename_i hc
          rw [hc]
          exact cancelBranch_status apt req userId now
        · exact ⟨rfl, rfl⟩
    set apt2 :=
      match req.staffNotes with
      | some n => { pr.1 with staffNotes := some n }
      | none => pr.1 with hapt2
    have hapt2p : apt2.status = req.status ∧ apt2.id = apt.id := by
      rw [hapt2]
      cases req.staffNotes <;> simpa using hpr1
    refine ⟨apt2, ?_, hapt2p.1⟩
    have hids : ∃ b ∈ (noShowTrack pr.2 apt req now).appointments,
        b.id = apt2.id := by
      rw [noShowTrack_appointments]
      have hpr2 : pr.2.appointments = st.appointments := by
        rw [hpr]
        split
        · exact confirmBranch_snd_appointments st apt userId now
        · split
          · rfl
          · rfl
      rw [hpr2]
      exact ⟨apt, hmem, by rw [hapt2p.2]⟩
    have := findApt_saveApt_self (noShowTrack pr.2 apt req now) apt2 hids
    rw [hapt2p.2, hid] at this
    exact this

/-! ## Claim C1 -/

/-- C1, counterexample: with appointment 0 already `confirmed` at the very
slot of appointment 1, the staff status-update that sets appointment 1 to
`confirmed` does NOT fail with a conflict error: it succeeds and persists
`confirmed`, contradicting the claim at this input. -/
theorem C1_counterexample :
    (∀ a ∈ stC1.appointments, a.doctorName = drA ∧
      a.appointmentDate = some 0 ∧ a.appointmentTime = some t9) ∧
    (findApt stC1 0).map Appointment.status = some .confirmed ∧
    (findApt stC1 1).map Appointment.status = some .scheduled ∧
    (updateStatus stC1 1 confirmReq 5 0).resp = .ok ∧
    (findApt (updateStatus stC1 1 confirmReq 5 0).state 1).map
      Appointment.status = some .confirmed := by decide

/-- C1, amended: the staff status-update route performs no slot-conflict
check at confirmation time — confirming any found appointment succeeds and
persists `confirmed` regardless of other appointments in the slot; the
only confirmed-slot conflict rejection is at portal booking time
(`src/unnamed/part_012`), where booking a slot that already holds a
`confirmed` appointment is refused with a conflict error and no state
change. -/
theorem C1_amended :
    (∀ (st : ClinicState) (aptId userId : Nat) (now : Int)
      (req : StatusReq) (apt : Appointment),
      findApt st aptId = some apt → req.status = .confirmed →
      (updateStatus st aptId req userId now).resp = .ok ∧
      ∃ a, findApt (updateStatus st aptId req userId now).state aptId
          = some a ∧ a.status = .confirmed) ∧
    (∀ (st : ClinicState) (uid : Nat) (email doctorName : String)
      (date : Int) (time : Time12) (newId newPid : Nat),
      portalSlotConfirmed12 st.appointments doctorName date time = true →
      portalBook12 st uid email doctorName date time newId newPid
        = ⟨st, .err .slotConfirmed⟩) := by
  constructor
  · intro st aptId userId now req apt hfind hconf
    have hallowed : statusReqAllowed req.status = true := by
      rw [hconf]
      decide
    have h := updateStatus_sets_status st aptId req userId now apt hfind
      hallowed
    rw [hconf] at h
    exact h
  · intro st uid email doctorName date time newId newPid htaken
    unfold portalBook12
    simp [htaken]

/-- C1, witness for the amended theorem at the concrete two-appointment
state. -/
theorem C1_amended_witness :
    ((updateStatus stC1 1 confirmReq 5 0).resp = .ok ∧
      ∃ a, findApt (updateStatus stC1 1 confirmReq 5 0).state 1
          = some a ∧ a.status = .confirmed) ∧
    portalBook12 stC1 9 emailX drA 0 t9 5 6
      = ⟨stC1, .err .slotConfirmed⟩ := by
  constructor
  · exact C1_amended.1 stC1 1 5 0 confirmReq { baseApt with id := 1 }
      (by decide) rfl
  · exact C1_amended.2 stC1 9 emailX drA 0 t9 5 6 (by decide)

/-! ## Claim C2 -/

/-- C2, counterexample: the portal booking slot check of
`src/routes/patientBooking.js` reports the slot busy although no
appointment at the slot is in the claimed exclusivity set
(the only occupant is `completed`), and the handler rejects the booking. -/
theorem C2_counterexample :
    (∀ a ∈ stC2.appointments,
      ¬(a.status = .scheduled ∨ a.status = .confirmed ∨
        a.status = .reschedulePending)) ∧
    portalSlotTakenPB stC2.appointments drA 0 t9 = true ∧
    (portalBookPB stC2 9 emailX drA 0 t9 5 6 0).resp
      = .err .slotUnavailable := by decide

/-- C2, amended: the staff booking check uses exactly the exclusivity set
`scheduled, confirmed`; the staff and patient reschedule conflict checks
use exactly `scheduled, confirmed, reschedule_pending` excluding the
appointment itself; but the portal booking check of
`src/routes/patientBooking.js` treats every non-cancelled appointment as
blocking (so `completed`, `no-show`, `rescheduled` and the pending states
also block), and the portal booking check of `src/unnamed/part_012` treats
only a `confirmed` appointment as blocking (so `scheduled` does not
block). -/
theorem C2_amended :
    (∀ (appts : List Appointment) (d : String) (dt : Int) (t : Time12),
      staffSlotTaken appts d dt t = true ↔
      ∃ a ∈ appts, a.doctorName = d ∧ a.appointmentDate = some dt ∧
        a.appointmentTime = some t ∧
        (a.status = .scheduled ∨ a.status = .confirmed)) ∧
    (∀ (appts : List Appointment) (selfId : Nat) (d : String) (dt : Int)
      (t : Time12),
      rescheduleConflict appts selfId d dt t = true ↔
      ∃ a ∈ appts, ¬a.id = selfId ∧ a.doctorName = d ∧
        a.appointmentDate = some dt ∧ a.appointmentTime = some t ∧
        (a.status = .scheduled ∨ a.status = .confirmed ∨
          a.status = .reschedulePending)) ∧
    (∀ (appts : List Appointment) (d : String) (dt : Int) (t : Time12),
      portalSlotTakenPB appts d dt t = true ↔
      ∃ a ∈ appts, a.appointmentDate = some dt ∧
        a.appointmentTime = some t ∧ a.doctorName = d ∧
        ¬a.status = .cancelled) ∧
    (∀ (appts : List Appointment) (d : String) (dt : Int) (t : Time12),
      portalSlotConfirmed12 appts d dt t = true ↔
      ∃ a ∈ appts, a.appointmentDate = some dt ∧
        a.appointmentTime = some t ∧ a.doctorName = d ∧
        a.status = .confirmed) ∧
    (∀ (st : ClinicState) (uid : Nat) (email d : String) (dt : Int)
      (t : Time12) (newId newPid : Nat) (now : Int),
      (portalBookPB st uid email d dt t newId newPid now).resp
          = .err .slotUnavailable ↔
      portalSlotTakenPB st.appointments d dt t = true) := by
  refine ⟨?_, ?_, ?_, ?_, ?_⟩
  · intro appts d dt t
    simp [staffSlotTaken, List.any_eq_true, and_assoc, or_assoc]
  · intro appts selfId d dt t
    simp [rescheduleConflict, List.any_eq_true, and_assoc, or_assoc]
  · intro appts d dt t
    simp [portalSlotTakenPB, List.any_eq_true, and_assoc, or_assoc]
  · intro appts d dt t
    simp [portalSlotConfirmed12, List.any_eq_true, and_assoc, or_assoc]
  · intro st uid email d dt t newId newPid now
    by_cases h : portalSlotTakenPB st.appointments d dt t = true
    · unfold portalBookPB
      simp [h]
    · unfold portalBookPB
      rw [if_neg h]
      simp only [h, iff_false]
      repeat' split
      all_goals simp


/-! ## Claim C3 -/

/-- A single status-update to `no-show` on an appointment not already in
`no-show` succeeds and increments the linked patient's counter by exactly
one, stamping `lastNoShowAt` and locking at the third strike. -/
theorem noShow_increments (st : ClinicState) (aptId uid pid : Nat)
    (now : Int) (apt : Appointment) (p : Patient)
    (hfind : findApt st aptId = some apt)
    (hns : ¬apt.status = .noShow)
    (hp : apt.patient = some pid)
    (hpf : findPatient st pid = some p) :
    (updateStatus st aptId noShowReq uid now).resp = .ok ∧
    findPatient (updateStatus st aptId noShowReq uid now).state pid
      = some { p with
          noShowCount := p.noShowCount + 1,
          lastNoShowAt := some now,
          appointmentLocked :=
            if 3 ≤ p.noShowCount + 1 then true
            else p.appointmentLocked } := by
  obtain ⟨hpmem, hpid⟩ := findPatient_mem hpf
  have hres : updateStatus st aptId noShowReq uid now
      = ⟨saveApt (noShowTrack st apt noShowReq now)
          { apt with status := Status.noShow }, .ok⟩ := by
    unfold updateStatus
    rw [hfind]
    rfl
  have htr : noShowTrack st apt noShowReq now
      = savePatient st { p with
          noShowCount := p.noShowCount + 1,
          lastNoShowAt := some now,
          appointmentLocked :=
            if 3 ≤ p.noShowCount + 1 then true
            else p.appointmentLocked } := by
    unfold noShowTrack
    rw [if_pos ⟨rfl, hns⟩]
    simp only [hp, hpf]
  rw [hres]
  refine ⟨rfl, ?_⟩
  have hstep : findPatient
      (saveApt (noShowTrack st apt noShowReq now)
        { apt with status := Status.noShow }) pid
      = findPatient (noShowTrack st apt noShowReq now) pid := rfl
  rw [hstep, htr]
  rw [← hpid]
  exact findPatient_savePatient_self st _ ⟨p, hpmem, rfl⟩

/-- C3: for every patient and every valid run of N no-show transitions
(each request moving one of the patient's appointments into `no-show` from
another status), the patient's `noShowCount` ends at its initial value
plus N; and a repeated no-show request on an appointment already in
`no-show` leaves the patient collection (hence every `noShowCount`)
unchanged. -/
theorem C3_noShow_counting :
    (∀ (pid uid : Nat) (now : Int) (st : ClinicState) (ids : List Nat)
      (p : Patient),
      ValidNoShowRun pid uid now st ids →
      findPatient st pid = some p →
      ∃ q, findPatient (noShowRun uid now st ids) pid = some q ∧
        q.noShowCount = p.noShowCount + ids.length) ∧
    (∀ (st : ClinicState) (aptId uid : Nat) (now : Int)
      (apt : Appointment),
      findApt st aptId = some apt → apt.status = .noShow →
      (updateStatus st aptId noShowReq uid now).state.patients
        = st.patients) := by
  constructor
  · intro pid uid now st ids
    induction ids generalizing st with
    | nil =>
      intro p _ hpf
      exact ⟨p, hpf, by simp [noShowRun]⟩
    | cons i rest ih =>
      intro p hvalid hpf
      obtain ⟨⟨apt, hfind, hns, hpa, _⟩, hrest⟩ := hvalid
      have hstep := noShow_increments st i uid pid now apt p hfind hns hpa
        hpf
      obtain ⟨q, hq, hqc⟩ := ih (noShowStep uid now st i) _ hrest hstep.2
      refine ⟨q, ?_, ?_⟩
      · simpa [noShowRun] using hq
      · rw [hqc]
        simp only [List.length_cons]
        omega
  · intro st aptId uid now apt hfind hstat
    have hres : updateStatus st aptId noShowReq uid now
        = ⟨saveApt (noShowTrack st apt noShowReq now)
            { apt with status := Status.noShow }, .ok⟩ := by
      unfold updateStatus
      rw [hfind]
      rfl
    rw [hres]
    have hsp : (saveApt (noShowTrack st apt noShowReq now)
        { apt with status := Status.noShow }).patients
        = (noShowTrack st apt noShowReq now).patients := rfl
    rw [hsp]
    unfold noShowTrack
    rw [if_neg (fun h => h.2 hstat)]

/-- C3, witness: a run of two no-show transitions on patient 3 ends with
`noShowCount = 2`, and a duplicate no-show request on an already-`no-show`
appointment leaves the patient collection unchanged. -/
theorem C3_noShow_counting_witness :
    (∃ q, findPatient (noShowRun 5 0 stC3 [0, 1]) 3 = some q ∧
      q.noShowCount = 0 + 2) ∧
    (updateStatus stNS 0 noShowReq 5 99).state.patients
      = stNS.patients := by
  constructor
  · refine C3_noShow_counting.1 3 5 0 stC3 [0, 1]
      ⟨3, .active, 0, none, false, none⟩ ?_ (by decide)
    refine ⟨⟨{ baseApt with patient := some 3 },
      by decide, by decide, by decide, by decide⟩, ?_, trivial⟩
    exact ⟨{ baseApt with id := 1, patient := some 3 },
      by decide, by decide, by decide, by decide⟩
  · exact C3_noShow_counting.2 stNS 0 5 99
      { baseApt with patient := some 3, status := .noShow }
      (by decide) (by decide)


/-! ## Claim C4 -/

theorem mem_replaceBy {α : Type} (key : α → Nat) (l : List α) (a : α)
    {x : α} (hx : x ∈ replaceBy key l a) : x = a ∨ x ∈ l := by
  unfold replaceBy at hx
  obtain ⟨b, hb, hxb⟩ := List.mem_map.mp hx
  by_cases h : key b = key a
  · left
    rw [← hxb]
    simp [h]
  · right
    rw [← hxb]
    simp only [if_neg h]
    exact hb

theorem lockInv_savePatient (st : ClinicState) (q : Patient)
    (hinv : ∀ p ∈ st.patients, LockInv p) (hq : LockInv q) :
    ∀ p ∈ (savePatient st q).patients, LockInv p := by
  intro p hp
  rcases mem_replaceBy _ _ _ hp with rfl | hmem
  · exact hq
  · exact hinv p hmem

theorem lockInv_addPatient (st : ClinicState) (q : Patient)
    (hinv : ∀ p ∈ st.patients, LockInv p) (hq : LockInv q) :
    ∀ p ∈ (addPatient st q).patients, LockInv p := by
  intro p hp
  rcases List.mem_append.mp hp with h | h
  · exact hinv p h
  · rw [List.mem_singleton.mp h]
    exact hq

theorem confirmBranch_lockInv (st : ClinicState) (apt : Appointment)
    (userId : Nat) (now : Int)
    (hinv : ∀ p ∈ st.patients, LockInv p) :
    ∀ p ∈ (confirmBranch st apt userId now).2.patients, LockInv p := by
  unfold confirmBranch
  dsimp only
  cases hpa : apt.patient with
  | none => exact hinv
  | some pid =>
    dsimp only
    cases hpf : findPatient st pid with
    | none => exact hinv
    | some p0 =>
      dsimp only
      by_cases hnew : p0.status = PatientStatus.new
      · simp only [if_pos hnew]
        refine lockInv_savePatient st _ hinv ?_
        have hp0 := hinv p0 (findPatient_mem hpf).1
        unfold LockInv at hp0 ⊢
        exact hp0
      · simp only [if_neg hnew]
        exact hinv

theorem noShowTrack_lockInv (st : ClinicState) (apt : Appointment)
    (req : StatusReq) (now : Int)
    (hinv : ∀ p ∈ st.patients, LockInv p) :
    ∀ p ∈ (noShowTrack st apt req now).patients, LockInv p := by
  unfold noShowTrack
  repeat' split
  all_goals try exact hinv
  rename_i hcond pid hpid p0 heq
  apply lockInv_savePatient st _ hinv
  have hp0 := hinv p0 (findPatient_mem heq).1
  unfold LockInv at hp0 ⊢
  by_cases h3 : 3 ≤ p0.noShowCount + 1
  · simp [h3]
  · have hcount : ¬3 ≤ p0.noShowCount := by omega
    have hl : p0.appointmentLocked = false := by
      cases hb : p0.appointmentLocked
      · rfl
      · exact absurd (hp0.mp hb) hcount
    simp [hl, h3]

/-- C4: the lock invariant `appointmentLocked = true ↔ noShowCount ≥ 3` is
preserved by every patient-touching operation (status update including the
no-show strike tracking, staff unlock, and both portal booking handlers);
a no-show transition that brings the counter to three or more sets the
lock; and the staff unlock resets the lock and the counter to
`false`/`0` together in one write. -/
theorem C4_lock_iff_three_strikes :
    (∀ (st : ClinicState) (aptId : Nat) (req : StatusReq) (userId : Nat)
      (now : Int), (∀ p ∈ st.patients, LockInv p) →
      ∀ p ∈ (updateStatus st aptId req userId now).state.patients,
        LockInv p) ∧
    (∀ (st : ClinicState) (pid : Nat), (∀ p ∈ st.patients, LockInv p) →
      ∀ p ∈ (unlockAppointments st pid).state.patients, LockInv p) ∧
    (∀ (st : ClinicState) (uid : Nat) (email doctorName : String)
      (date : Int) (time : Time12) (newId newPid : Nat) (now : Int),
      (∀ p ∈ st.patients, LockInv p) →
      ∀ p ∈ (portalBookPB st uid email doctorName date time newId newPid
        now).state.patients, LockInv p) ∧
    (∀ (st : ClinicState) (uid : Nat) (email doctorName : String)
      (date : Int) (time : Time12) (newId newPid : Nat),
      (∀ p ∈ st.patients, LockInv p) →
      ∀ p ∈ (portalBook12 st uid email doctorName date time newId
        newPid).state.patients, LockInv p) ∧
    (∀ (st : ClinicState) (aptId uid pid : Nat) (now : Int)
      (apt : Appointment) (p : Patient),
      findApt st aptId = some apt → ¬apt.status = .noShow →
      apt.patient = some pid → findPatient st pid = some p →
      2 ≤ p.noShowCount →
      ∃ q, findPatient (updateStatus st aptId noShowReq uid now).state pid
          = some q ∧ q.appointmentLocked = true ∧
        q.noShowCount = p.noShowCount + 1) ∧
    (∀ (st : ClinicState) (pid : Nat) (p : Patient),
      findPatient st pid = some p →
      (unlockAppointments st pid).resp = .ok ∧
      findPatient (unlockAppointments st pid).state pid
        = some { p with appointmentLocked := false, noShowCount := 0 }) := by
  refine ⟨?_, ?_, ?_, ?_, ?_, ?_⟩
  · intro st aptId req userId now hinv
    unfold updateStatus
    split
    · exact hinv
    · split
      · exact hinv
      · rename_i apt heq
        intro p hp
        have hp2 : p ∈ (noShowTrack
            (if req.status = .confirmed then confirmBranch st apt userId now
             else if req.status = .cancelled then
               (cancelBranch apt req userId now, st)
             else ({ apt with status := req.status }, st)).2
            apt req now).patients := hp
        refine noShowTrack_lockInv _ apt req now ?_ p hp2
        split
        · exact confirmBranch_lockInv st apt userId now hinv
        · split
          · exact hinv
          · exact hinv
  · intro st pid hinv
    unfold unlockAppointments
    split
    · exact hinv
    · exact lockInv_savePatient st _ hinv (by simp [LockInv])
  · intro st uid email doctorName date time newId newPid now hinv
    unfold portalBookPB
    split
    · exact hinv
    · dsimp only
      cases hpe : findPatientByEmail st email with
      | some p0 =>
        dsimp only
        split
        · exact hinv
        · exact hinv
      | none =>
        dsimp only
        split
        · exact lockInv_addPatient st (freshPortalPatient newPid email)
            hinv (by simp [LockInv, freshPortalPatient])
        · exact lockInv_addPatient st (freshPortalPatient newPid email)
            hinv (by simp [LockInv, freshPortalPatient])
  · intro st uid email doctorName date time newId newPid hinv
    unfold portalBook12
    split
    · exact hinv
    · dsimp only
      cases hpe : findPatientByEmail st email with
      | some p0 =>
        dsimp only
        by_cases hin : p0.status = PatientStatus.inactive
        · simp only [if_pos hin]
          have hsp : ∀ q ∈ (savePatient st
              { p0 with status := PatientStatus.new }).patients,
              LockInv q := by
            refine lockInv_savePatient st _ hinv ?_
            have hp0 := hinv p0 (findPatientByEmail_mem hpe)
            unfold LockInv at hp0 ⊢
            exact hp0
          split
          · exact hsp
          · exact hsp
        · simp only [if_neg hin]
          split
          · exact hinv
          · exact hinv
      | none =>
        dsimp only
        split
        · exact lockInv_addPatient st (freshPortalPatient newPid email)
            hinv (by simp [LockInv, freshPortalPatient])
        · exact lockInv_addPatient st (freshPortalPatient newPid email)
            hinv (by simp [LockInv, freshPortalPatient])
  · intro st aptId uid pid now apt p hfind hns hpa hpf h2
    obtain ⟨_, hq⟩ := noShow_increments st aptId uid pid now apt p hfind
      hns hpa hpf
    refine ⟨_, hq, ?_, rfl⟩
    have h3 : 3 ≤ p.noShowCount + 1 := by omega
    simp [h3]
  · intro st pid p hpf
    obtain ⟨hpmem, hpid⟩ := findPatient_mem hpf
    have hres : unlockAppointments st pid
        = ⟨savePatient st { p with
            appointmentLocked := false,
            noShowCount := 0 }, .ok⟩ := by
      unfold unlockAppointments
      rw [hpf]
    rw [hres]
    refine ⟨rfl, ?_⟩
    have := findPatient_savePatient_self st
      { p with appointmentLocked := false, noShowCount := 0 }
      ⟨p, hpmem, rfl⟩
    rw [← hpid]
    exact this

/-- C4, witness: at the two-strike state, the third no-show locks the
patient (counter 3, lock set); the unlock resets lock and counter
together; and the invariant holds after a concrete status update. -/
theorem C4_lock_iff_three_strikes_witness :
    (∀ p ∈ (updateStatus stC4 0 noShowReq 5 0).state.patients,
      LockInv p) ∧
    (∃ q, findPatient (updateStatus stC4 0 noShowReq 5 0).state 3
        = some q ∧ q.appointmentLocked = true ∧ q.noShowCount = 2 + 1) ∧
    ((unlockAppointments stNS 3).resp = .ok ∧
      findPatient (unlockAppointments stNS 3).state 3
        = some ⟨3, .active, 0, some 0, false, none⟩) := by
  refine ⟨?_, ?_, ?_⟩
  · refine C4_lock_iff_three_strikes.1 stC4 0 noShowReq 5 0 ?_
    intro p hp
    have hp3 : p = ⟨3, .active, 2, none, false, none⟩ := by
      simpa [stC4] using hp
    rw [hp3]
    simp [LockInv]
  · exact C4_lock_iff_three_strikes.2.2.2.2.1 stC4 0 5 3 0
      { baseApt with patient := some 3 } ⟨3, .active, 2, none, false, none⟩
      (by decide) (by decide) (by decide) (by decide) (by decide)
  · exact C4_lock_iff_three_strikes.2.2.2.2.2 stNS 3
      ⟨3, .active, 1, some 0, false, none⟩ (by decide)


/-! ## Claim C5 -/

/-- C5: for a found portal appointment that passes the other guards, the
patient cancellation and reschedule requests of
`src/routes/patientBooking.js` are rejected (with the cutoff error)
exactly when the instant formed from the stored date and the parsed
12-hour time lies strictly less than two hours (7200000 ms) after `now`;
otherwise they succeed. -/
theorem C5_two_hour_cutoff :
    (∀ (st : ClinicState) (aptId uid : Nat) (reason : Option String)
      (now d : Int) (t : Time12) (apt : Appointment),
      findAptByIdUser st aptId uid = some apt →
      apt.appointmentDate = some d → apt.appointmentTime = some t →
      ¬apt.status = .cancelled → ¬apt.status = .completed →
      pendingCancellation apt = false →
      ((requestCancellationPB st aptId uid reason now).resp
          = .err .tooLate ↔ appointmentInstant d t - now < msCutoff) ∧
      (¬appointmentInstant d t - now < msCutoff →
        (requestCancellationPB st aptId uid reason now).resp = .ok)) ∧
    (∀ (st : ClinicState) (aptId uid : Nat) (reason : Option String)
      (pd : Option Int) (pt : Option Time12) (now d : Int) (t : Time12)
      (apt : Appointment),
      findAptByIdUser st aptId uid = some apt →
      apt.appointmentDate = some d → apt.appointmentTime = some t →
      ¬(apt.status = .cancelled ∨ apt.status = .completed) →
      pendingReschedule apt = false →
      ((requestReschedulePB st aptId uid reason pd pt now).resp
          = .err .tooLate ↔ appointmentInstant d t - now < msCutoff) ∧
      (¬appointmentInstant d t - now < msCutoff →
        (requestReschedulePB st aptId uid reason pd pt now).resp
          = .ok)) := by
  constructor
  · intro st aptId uid reason now d t apt hfind hd ht hcan hcomp hpend
    unfold requestCancellationPB
    rw [hfind]
    dsimp only
    rw [if_neg hcan, if_neg hcomp, if_neg (by simp [hpend]), hd, ht]
    dsimp only [Option.getD]
    by_cases hcut : appointmentInstant d t - now < msCutoff
    · rw [if_pos hcut]
      exact ⟨by simp [hcut], fun h => absurd hcut h⟩
    · rw [if_neg hcut]
      exact ⟨by simp [hcut], fun _ => rfl⟩
  · intro st aptId uid reason pd pt now d t apt hfind hd ht hterm hpend
    unfold requestReschedulePB
    rw [hfind]
    dsimp only
    rw [if_neg hterm, if_neg (by simp [hpend]), hd, ht]
    dsimp only [Option.getD]
    by_cases hcut : appointmentInstant d t - now < msCutoff
    · rw [if_pos hcut]
      exact ⟨by simp [hcut], fun h => absurd hcut h⟩
    · rw [if_neg hcut]
      exact ⟨by simp [hcut], fun _ => rfl⟩

/-- C5, witness: appointment at 9:00 AM of epoch day 0 (instant 32400000).
A cancellation request exactly 120 minutes before (now = 25200000) is
accepted; one at 119 minutes 59 seconds before (now = 25201000) is
rejected with the cutoff error; likewise for reschedule requests. -/
theorem C5_two_hour_cutoff_witness :
    (requestCancellationPB stOne 0 7 none 25200000).resp = .ok ∧
    (requestCancellationPB stOne 0 7 none 25201000).resp
      = .err .tooLate ∧
    (requestReschedulePB stOne 0 7 none none none 25200000).resp = .ok ∧
    (requestReschedulePB stOne 0 7 none none none 25201000).resp
      = .err .tooLate := by
  refine ⟨?_, ?_, ?_, ?_⟩
  · exact (C5_two_hour_cutoff.1 stOne 0 7 none 25200000 0 t9 baseApt
      (by decide) (by decide) (by decide) (by decide) (by decide)
      (by decide)).2 (by decide)
  · exact (C5_two_hour_cutoff.1 stOne 0 7 none 25201000 0 t9 baseApt
      (by decide) (by decide) (by decide) (by decide) (by decide)
      (by decide)).1.mpr (by decide)
  · exact (C5_two_hour_cutoff.2 stOne 0 7 none none none 25200000 0 t9
      baseApt (by decide) (by decide) (by decide) (by decide)
      (by decide)).2 (by decide)
  · exact (C5_two_hour_cutoff.2 stOne 0 7 none none none 25201000 0 t9
      baseApt (by decide) (by decide) (by decide) (by decide)
      (by decide)).1.mpr (by decide)


/-! ## Claim C6 -/

/-- C6, evaluation at the failing input: a `scheduled` portal appointment
goes through a patient cancellation request and a staff rejection.  On the
`src/unnamed/part_012` path the request's `previousStatus` is captured
only after the status was overwritten, so it stores
`cancellation_pending`, and the rejection "restores" the appointment to
`cancellation_pending` instead of `scheduled`.  On the
`src/routes/patientBooking.js` path no `previousStatus` is stored at all,
and the rejection falls back to `confirmed` — also not `scheduled`.  In
both runs the request is marked rejected, but the claimed restoration
never happens. -/
theorem C6_reject_restore_bug :
    (findApt stOne 0).map Appointment.status = some .scheduled ∧
    (requestCancellation12 stOne 0 7 (some reasonSick) 0).resp = .ok ∧
    ((findApt (requestCancellation12 stOne 0 7 (some reasonSick) 0).state
        0).map (fun a => a.cancellationRequest.map
          (fun r => r.previousStatus)))
      = some (some (some .cancellationPending)) ∧
    (rejectCancellation
      (requestCancellation12 stOne 0 7 (some reasonSick) 0).state
      0 9 none 1000).resp = .ok ∧
    ((findApt (rejectCancellation
        (requestCancellation12 stOne 0 7 (some reasonSick) 0).state
        0 9 none 1000).state 0).map Appointment.status)
      = some .cancellationPending ∧
    ((findApt (rejectCancellation
        (requestCancellation12 stOne 0 7 (some reasonSick) 0).state
        0 9 none 1000).state 0).map
        (fun a => a.cancellationRequest.map (fun r => r.reqStatus)))
      = some (some .rejected) ∧
    (rejectCancellation
      (requestCancellationPB stOne 0 7 none 0).state 0 9 none 1000).resp
      = .ok ∧
    ((findApt (rejectCancellation
        (requestCancellationPB stOne 0 7 none 0).state 0 9 none
        1000).state 0).map Appointment.status)
      = some .confirmed := by decide

/-! ## Claim C7 -/

/-- C7, counterexample: a `completed` appointment — a terminal state per
the claim — is moved to `cancelled` by a staff status-update request,
which succeeds instead of being rejected. -/
theorem C7_counterexample :
    (findApt stC2 0).map Appointment.status = some .completed ∧
    (updateStatus stC2 0 cancelReq 5 0).resp = .ok ∧
    (findApt (updateStatus stC2 0 cancelReq 5 0).state 0).map
      Appointment.status = some .cancelled := by decide

/-- C7, amended: the patient-facing request endpoints do reject terminal
appointments with no state change, but the staff status-update route has
no source-state guard — on any found appointment, including `completed`
and `cancelled` ones, it succeeds and overwrites the status with any
allowed target. -/
theorem C7_amended :
    (∀ (st : ClinicState) (aptId uid : Nat) (reason : Option String)
      (now : Int) (apt : Appointment),
      findAptByIdUser st aptId uid = some apt →
      apt.status = .cancelled →
      requestCancellationPB st aptId uid reason now
        = ⟨st, .err .alreadyCancelled⟩) ∧
    (∀ (st : ClinicState) (aptId uid : Nat) (reason : Option String)
      (now : Int) (apt : Appointment),
      findAptByIdUser st aptId uid = some apt →
      apt.status = .completed →
      requestCancellationPB st aptId uid reason now
        = ⟨st, .err .alreadyCompleted⟩) ∧
    (∀ (st : ClinicState) (aptId uid : Nat) (reason : Option String)
      (pd : Option Int) (pt : Option Time12) (now : Int)
      (apt : Appointment),
      findAptByIdUser st aptId uid = some apt →
      apt.status = .cancelled ∨ apt.status = .completed →
      requestReschedulePB st aptId uid reason pd pt now
        = ⟨st, .err .cancelledOrCompleted⟩) ∧
    (∀ (st : ClinicState) (aptId userId : Nat) (req : StatusReq)
      (now : Int) (apt : Appointment),
      findApt st aptId = some apt →
      (apt.status = .completed ∨ apt.status = .cancelled) →
      statusReqAllowed req.status = true →
      (updateStatus st aptId req userId now).resp = .ok ∧
      ∃ a, findApt (updateStatus st aptId req userId now).state aptId
          = some a ∧ a.status = req.status) := by
  refine ⟨?_, ?_, ?_, ?_⟩
  · intro st aptId uid reason now apt hfind hcan
    unfold requestCancellationPB
    rw [hfind]
    dsimp only
    rw [if_pos hcan]
  · intro st aptId uid reason now apt hfind hcomp
    unfold requestCancellationPB
    rw [hfind]
    dsimp only
    rw [if_neg (by rw [hcomp]; decide), if_pos hcomp]
  · intro st aptId uid reason pd pt now apt hfind hterm
    unfold requestReschedulePB
    rw [hfind]
    dsimp only
    rw [if_pos hterm]
  · intro st aptId userId req now apt hfind _ hallowed
    exact updateStatus_sets_status st aptId req userId now apt hfind
      hallowed

/-- C7, witness: the request endpoints reject the concrete completed and
cancelled appointments unchanged, and the staff status-update moves the
concrete completed appointment to `cancelled`. -/
theorem C7_amended_witness :
    requestCancellationPB stCan 0 7 none 0
      = ⟨stCan, .err .alreadyCancelled⟩ ∧
    requestCancellationPB stC2 0 7 none 0
      = ⟨stC2, .err .alreadyCompleted⟩ ∧
    requestReschedulePB stC2 0 7 none none none 0
      = ⟨stC2, .err .cancelledOrCompleted⟩ ∧
    ((updateStatus stC2 0 cancelReq 5 0).resp = .ok ∧
      ∃ a, findApt (updateStatus stC2 0 cancelReq 5 0).state 0 = some a ∧
        a.status = .cancelled) := by
  refine ⟨?_, ?_, ?_, ?_⟩
  · exact C7_amended.1 stCan 0 7 none 0 { baseApt with status := .cancelled }
      (by decide) (by decide)
  · exact C7_amended.2.1 stC2 0 7 none 0
      { baseApt with status := .completed } (by decide) (by decide)
  · exact C7_amended.2.2.1 stC2 0 7 none none none 0
      { baseApt with status := .completed } (by decide) (by decide)
  · exact C7_amended.2.2.2 stC2 0 5 cancelReq 0
      { baseApt with status := .completed } (by decide)
      (by decide) (by decide)


/-! ## Claim C8 -/

theorem err_unchanged_of_or {o : Outcome} {st : ClinicState} {e : Err}
    (h : o.resp = .ok ∨ o.state = st) (he : o.resp = .err e) :
    o.state = st := by
  rcases h with hok | hst
  · rw [he] at hok
    exact absurd hok (by simp)
  · exact hst

theorem err_appointments_of_or {o : Outcome} {st : ClinicState} {e : Err}
    (h : o.resp = .ok ∨ o.state.appointments = st.appointments)
    (he : o.resp = .err e) : o.state.appointments = st.appointments := by
  rcases h with hok | hst
  · rw [he] at hok
    exact absurd hok (by simp)
  · exact hst

/-- The patientBooking.js booking handler also never writes to the
appointment collection on a rejection (it can create a patient record
before its outstanding-appointment rejection). -/
theorem portalBookPB_err_appointments (st : ClinicState) (uid : Nat)
    (email doctorName : String) (date : Int) (time : Time12)
    (newId newPid : Nat) (now : Int) :
    (portalBookPB st uid email doctorName date time newId newPid
      now).resp = .ok ∨
    (portalBookPB st uid email doctorName date time newId newPid
      now).state.appointments = st.appointments := by
  unfold portalBookPB
  repeat' split
  all_goals simp only [addPatient, addApt]
  all_goals first
  | (split <;> simp)
  | simp

/-- C8, counterexample: the part_012 portal booking by a locked patient
whose record was `Inactive` is rejected with the lock error, yet the
stored patient record has already been mutated to status `New` — the
rejection is returned after a persisted write, contradicting the claimed
no-mutation property. -/
theorem C8_counterexample :
    (findPatient stC8 3).map Patient.status = some .inactive ∧
    (portalBook12 stC8 9 emailX drA 0 t9 5 6).resp
      = .err .bookingLocked ∧
    (findPatient (portalBook12 stC8 9 emailX drA 0 t9 5 6).state 3).map
      Patient.status = some PatientStatus.new ∧
    ¬(portalBook12 stC8 9 emailX drA 0 t9 5 6).state = stC8 := by decide

/-- C8, amended: every rejection of the staff routes and of the patient
request/accept endpoints leaves the store exactly as it was, and no
rejection of either portal booking handler ever touches the appointment
collection; but the portal booking handlers can mutate or create the
patient record before rejecting (part_012 rejects on the appointment lock
after reviving an `Inactive` record to `New`; patientBooking.js rejects a
duplicate outstanding booking after creating the patient record), so a
patient record may differ after a rejected booking. -/
theorem C8_amended :
    (∀ (st : ClinicState) (aptId : Nat) (req : StatusReq) (userId : Nat)
      (now : Int) (e : Err),
      (updateStatus st aptId req userId now).resp = .err e →
      (updateStatus st aptId req userId now).state = st) ∧
    (∀ (st : ClinicState) (aptId : Nat) (newDate : Int)
      (newTime : Time12) (reason : Option String) (userId : Nat)
      (settings : Settings) (now : Int) (e : Err),
      (staffReschedule st aptId newDate newTime reason userId settings
        now).resp = .err e →
      (staffReschedule st aptId newDate newTime reason userId settings
        now).state = st) ∧
    (∀ (st : ClinicState) (patientId : Nat) (doctorName : String)
      (date : Int) (time : Time12) (newId : Nat) (e : Err),
      (createAppointment st patientId doctorName date time newId).resp
        = .err e →
      (createAppointment st patientId doctorName date time newId).state
        = st) ∧
    (∀ (st : ClinicState) (aptId userId : Nat)
      (adminNotes : Option String) (now : Int) (e : Err),
      (rejectCancellation st aptId userId adminNotes now).resp = .err e →
      (rejectCancellation st aptId userId adminNotes now).state = st) ∧
    (∀ (st : ClinicState) (aptId uid : Nat) (reason : Option String)
      (now : Int) (e : Err),
      (requestCancellationPB st aptId uid reason now).resp = .err e →
      (requestCancellationPB st aptId uid reason now).state = st) ∧
    (∀ (st : ClinicState) (aptId uid : Nat) (reason : Option String)
      (pd : Option Int) (pt : Option Time12) (now : Int) (e : Err),
      (requestReschedulePB st aptId uid reason pd pt now).resp = .err e →
      (requestReschedulePB st aptId uid reason pd pt now).state = st) ∧
    (∀ (st : ClinicState) (aptId uid : Nat) (reason : Option String)
      (now : Int) (e : Err),
      (requestCancellation12 st aptId uid reason now).resp = .err e →
      (requestCancellation12 st aptId uid reason now).state = st) ∧
    (∀ (st : ClinicState) (aptId uid : Nat) (reason : Option String)
      (dateToUse : Option Int) (timeToUse : Option Time12) (now : Int)
      (e : Err),
      (requestReschedule12 st aptId uid reason dateToUse timeToUse
        now).resp = .err e →
      (requestReschedule12 st aptId uid reason dateToUse timeToUse
        now).state = st) ∧
    (∀ (st : ClinicState) (aptId uid : Nat) (now : Int) (e : Err),
      (acceptReschedule12 st aptId uid now).resp = .err e →
      (acceptReschedule12 st aptId uid now).state = st) ∧
    (∀ (st : ClinicState) (uid : Nat) (email doctorName : String)
      (date : Int) (time : Time12) (newId newPid : Nat) (e : Err),
      (portalBook12 st uid email doctorName date time newId newPid).resp
        = .err e →
      (portalBook12 st uid email doctorName date time newId
        newPid).state.appointments = st.appointments) ∧
    (∀ (st : ClinicState) (uid : Nat) (email doctorName : String)
      (date : Int) (time : Time12) (newId newPid : Nat) (now : Int)
      (e : Err),
      (portalBookPB st uid email doctorName date time newId newPid
        now).resp = .err e →
      (portalBookPB st uid email doctorName date time newId newPid
        now).state.appointments = st.appointments) := by
  refine ⟨?_, ?_, ?_, ?_, ?_, ?_, ?_, ?_, ?_, ?_, ?_⟩
  · intro st aptId req userId now e he
    exact err_unchanged_of_or
      (updateStatus_ok_or_unchanged st aptId req userId now) he
  · intro st aptId newDate newTime reason userId settings now e he
    exact err_unchanged_of_or
      (staffReschedule_ok_or_unchanged st aptId newDate newTime reason
        userId settings now) he
  · intro st patientId doctorName date time newId e he
    exact err_unchanged_of_or
      (createAppointment_ok_or_unchanged st patientId doctorName date
        time newId) he
  · intro st aptId userId adminNotes now e he
    exact err_unchanged_of_or
      (rejectCancellation_ok_or_unchanged st aptId userId adminNotes
        now) he
  · intro st aptId uid reason now e he
    exact err_unchanged_of_or
      (requestCancellationPB_ok_or_unchanged st aptId uid reason now) he
  · intro st aptId uid reason pd pt now e he
    exact err_unchanged_of_or
      (requestReschedulePB_ok_or_unchanged st aptId uid reason pd pt
        now) he
  · intro st aptId uid reason now e he
    exact err_unchanged_of_or
      (requestCancellation12_ok_or_unchanged st aptId uid reason now) he
  · intro st aptId uid reason dateToUse timeToUse now e he
    exact err_unchanged_of_or
      (requestReschedule12_ok_or_unchanged st aptId uid reason dateToUse
        timeToUse now) he
  · intro st aptId uid now e he
    exact err_unchanged_of_or
      (acceptReschedule12_ok_or_unchanged st aptId uid now) he
  · intro st uid email doctorName date time newId newPid e he
    exact err_appointments_of_or
      (portalBook12_err_appointments st uid email doctorName date time
        newId newPid) he
  · intro st uid email doctorName date time newId newPid now e he
    exact err_appointments_of_or
      (portalBookPB_err_appointments st uid email doctorName date time
        newId newPid now) he

/-- C8, witness: a rejected status update leaves the store untouched, and
the lock-rejected part_012 booking leaves the appointment collection
untouched (its patient mutation is the counterexample). -/
theorem C8_amended_witness :
    (updateStatus stOne 0 badReq 5 0).state = stOne ∧
    (portalBook12 stC8 9 emailX drA 0 t9 5 6).state.appointments
      = stC8.appointments := by
  constructor
  · exact C8_amended.1 stOne 0 badReq 5 0 .validationFailed (by decide)
  · exact C8_amended.2.2.2.2.2.2.2.2.2.1 stC8 9 emailX drA 0 t9 5 6
      .bookingLocked (by decide)


/-! ## Claims C9 and C10 -/

/-- The accept-reschedule handler, on a found appointment with a pending
request, unconditionally copies the request's preferred slot into the
appointment, confirms it, and approves the request. -/
theorem acceptReschedule12_applies (st : ClinicState) (aptId uid : Nat)
    (now : Int) (apt : Appointment) (r : RescheduleRequest)
    (hfind : findAptByIdUser st aptId uid = some apt)
    (hreq : apt.rescheduleRequest = some r)
    (hpend : r.reqStatus = .pending) :
    acceptReschedule12 st aptId uid now
      = ⟨saveApt st { apt with
          appointmentDate := r.preferredDate,
          appointmentTime := r.preferredTime,
          status := Status.confirmed,
          rescheduleRequest := some { r with
            reqStatus := .approved,
            reviewedAt := some now } }, .ok⟩ := by
  unfold acceptReschedule12
  rw [hfind]
  dsimp only
  rw [hreq]
  dsimp only
  rw [if_neg (by simp [hpend])]

/-- The patient reschedule request without a proposed slot stores a
pending request with null preferred date and time. -/
theorem requestReschedule12_nodate_applies (st : ClinicState)
    (aptId uid : Nat) (reason : Option String) (now : Int)
    (apt : Appointment)
    (hfind : findAptByIdUser st aptId uid = some apt)
    (hterm : ¬(apt.status = .cancelled ∨ apt.status = .completed)) :
    requestReschedule12 st aptId uid reason none none now
      = ⟨saveApt st { apt with
          rescheduleRequest := some {
            reqStatus := .pending,
            reason := reason.getD patientRequestedRescheduleMsg,
            requestedAt := some now,
            requestedBy := some uid,
            preferredDate := none,
            preferredTime := none,
            reviewedAt := none,
            reviewedBy := none },
          status := Status.reschedulePending }, .ok⟩ := by
  unfold requestReschedule12
  rw [hfind]
  dsimp only
  rw [if_neg hterm]
  rfl

/-- C9: a staff-initiated reschedule of a portal appointment (not already
pending) to a proposed slot puts it in `reschedule_pending` carrying the
proposal, and the subsequent patient accept leaves it `confirmed` at
exactly the proposed date and time with `rescheduledFrom` holding the
date and time the appointment held before the proposal. -/
theorem C9_reschedule_roundtrip :
    ∀ (st : ClinicState) (aptId userId uid : Nat) (newDate : Int)
      (newTime : Time12) (reason : Option String) (settings : Settings)
      (now1 now2 : Int) (apt : Appointment),
      findApt st aptId = some apt →
      apt.bookingSource = .patientPortal →
      apt.patientUserId = some uid →
      ¬apt.status = .reschedulePending →
      dayBlockedFor settings apt.doctorName newDate = false →
      rescheduleConflict st.appointments apt.id apt.doctorName newDate
        newTime = false →
      (staffReschedule st aptId newDate newTime reason userId settings
        now1).resp = .ok ∧
      (∃ a1, findApt (staffReschedule st aptId newDate newTime reason
          userId settings now1).state aptId = some a1 ∧
        a1.status = .reschedulePending ∧
        a1.appointmentDate = some newDate ∧
        a1.appointmentTime = some newTime ∧
        ∃ r, a1.rescheduleRequest = some r ∧ r.reqStatus = .pending ∧
          r.preferredDate = some newDate ∧
          r.preferredTime = some newTime) ∧
      (acceptReschedule12 (staffReschedule st aptId newDate newTime
          reason userId settings now1).state aptId uid now2).resp
        = .ok ∧
      ∃ a2, findApt (acceptReschedule12 (staffReschedule st aptId newDate
          newTime reason userId settings now1).state aptId uid
          now2).state aptId = some a2 ∧
        a2.status = .confirmed ∧
        a2.appointmentDate = some newDate ∧
        a2.appointmentTime = some newTime ∧
        a2.rescheduledFrom = some {
          originalDate := apt.appointmentDate,
          originalTime := apt.appointmentTime,
          reason := reason.getD rescheduledByStaffMsg } := by
  intro st aptId userId uid newDate newTime reason settings now1 now2 apt
    hfind hport huid hnp hday hconf
  obtain ⟨hmem, hid⟩ := findApt_mem hfind
  have hres1 : staffReschedule st aptId newDate newTime reason userId
      settings now1
      = ⟨saveApt st (staffReschedulePendingApt apt newDate newTime reason
          now1), .ok⟩ := by
    unfold staffReschedule
    rw [hfind]
    dsimp only
    rw [if_neg (by simp [hday]), if_neg (by simp [hconf]),
      if_pos ⟨hport, by simp [huid]⟩, if_neg hnp]
  have hida : (staffReschedulePendingApt apt newDate newTime reason
      now1).id = aptId := hid
  have hbid : apt.id = (staffReschedulePendingApt apt newDate newTime
      reason now1).id := rfl
  have hfind1 : findApt (saveApt st (staffReschedulePendingApt apt
      newDate newTime reason now1)) aptId
      = some (staffReschedulePendingApt apt newDate newTime reason
        now1) := by
    have h := findApt_saveApt_self st
      (staffReschedulePendingApt apt newDate newTime reason now1)
      ⟨apt, hmem, hbid⟩
    rwa [hida] at h
  have hfindu : findAptByIdUser (saveApt st (staffReschedulePendingApt
      apt newDate newTime reason now1)) aptId uid
      = some (staffReschedulePendingApt apt newDate newTime reason
        now1) := by
    have h := findAptByIdUser_saveApt_self st
      (staffReschedulePendingApt apt newDate newTime reason now1) uid
      huid ⟨apt, hmem, hbid⟩
    rwa [hida] at h
  have hres2 := acceptReschedule12_applies
    (saveApt st (staffReschedulePendingApt apt newDate newTime reason
      now1)) aptId uid now2
    (staffReschedulePendingApt apt newDate newTime reason now1) _
    hfindu rfl rfl
  refine ⟨by rw [hres1], ?_, ?_, ?_⟩
  · refine ⟨staffReschedulePendingApt apt newDate newTime reason now1,
      ?_, rfl, rfl, rfl, _, rfl, rfl, rfl, rfl⟩
    rw [hres1]
    exact hfind1
  · rw [hres1]
    dsimp only
    rw [hres2]
  · rw [hres1]
    dsimp only
    rw [hres2]
    dsimp only
    have hfa2 := findApt_saveApt_self
      (saveApt st (staffReschedulePendingApt apt newDate newTime reason
        now1))
      { staffReschedulePendingApt apt newDate newTime reason now1 with
        appointmentDate := some newDate,
        appointmentTime := some newTime,
        status := Status.confirmed,
        rescheduleRequest := some {
          reqStatus := .approved,
          reason := reason.getD rescheduledByStaffMsg,
          requestedAt := some now1,
          requestedBy := none,
          preferredDate := some newDate,
          preferredTime := some newTime,
          reviewedAt := some now2,
          reviewedBy := none } }
      ⟨staffReschedulePendingApt apt newDate newTime reason now1,
        (findApt_mem hfind1).1, rfl⟩
    rw [show ({ staffReschedulePendingApt apt newDate newTime reason
        now1 with
        appointmentDate := some newDate,
        appointmentTime := some newTime,
        status := Status.confirmed,
        rescheduleRequest := some {
          reqStatus := .approved,
          reason := reason.getD rescheduledByStaffMsg,
          requestedAt := some now1,
          requestedBy := none,
          preferredDate := some newDate,
          preferredTime := some newTime,
          reviewedAt := some now2,
          reviewedBy := none } } : Appointment).id = aptId from hid]
      at hfa2
    exact ⟨_, hfa2, rfl, rfl, rfl, rfl⟩


/-- C9, witness: the round trip at the concrete one-appointment state
ends `confirmed` at (day 1, 10:30 AM) with `rescheduledFrom` holding the
original (day 0, 9:00 AM) slot. -/
theorem C9_reschedule_roundtrip_witness :
    (staffReschedule stOne 0 86400000 t10 none 5 settings0 0).resp
      = .ok ∧
    (acceptReschedule12 (staffReschedule stOne 0 86400000 t10 none 5
      settings0 0).state 0 7 50).resp = .ok ∧
    ∃ a2, findApt (acceptReschedule12 (staffReschedule stOne 0 86400000
        t10 none 5 settings0 0).state 0 7 50).state 0 = some a2 ∧
      a2.status = .confirmed ∧
      a2.appointmentDate = some 86400000 ∧
      a2.appointmentTime = some t10 ∧
      a2.rescheduledFrom = some ⟨some 0, some t9,
        rescheduledByStaffMsg⟩ := by
  have h := C9_reschedule_roundtrip stOne 0 5 7 86400000 t10 none
    settings0 0 50 baseApt (by decide) (by decide) (by decide)
    (by decide) (by decide) (by decide)
  exact ⟨h.1, h.2.2.1, h.2.2.2⟩

/-- C10: the patient reschedule request of `src/unnamed/part_012`
accepts a request without any proposed slot, storing a pending request
with null preferred date and time; the accept-reschedule handler has no
guard requiring a proposed slot and unconditionally copies those null
values into the appointment, so accepting such a request leaves a
`confirmed` appointment whose date and time are null — never a valid new
slot. -/
theorem C10_accept_null_slot :
    (∀ (st : ClinicState) (aptId uid : Nat) (reason : Option String)
      (now : Int) (apt : Appointment),
      findAptByIdUser st aptId uid = some apt →
      ¬(apt.status = .cancelled ∨ apt.status = .completed) →
      (requestReschedule12 st aptId uid reason none none now).resp
        = .ok ∧
      ∃ a, findApt (requestReschedule12 st aptId uid reason none none
          now).state aptId = some a ∧ a.status = .reschedulePending ∧
        ∃ r, a.rescheduleRequest = some r ∧ r.reqStatus = .pending ∧
          r.preferredDate = none ∧ r.preferredTime = none) ∧
    (∀ (st : ClinicState) (aptId uid : Nat) (now : Int)
      (apt : Appointment) (r : RescheduleRequest),
      findAptByIdUser st aptId uid = some apt →
      apt.rescheduleRequest = some r → r.reqStatus = .pending →
      r.preferredDate = none → r.preferredTime = none →
      (acceptReschedule12 st aptId uid now).resp = .ok ∧
      ∃ a, findApt (acceptReschedule12 st aptId uid now).state aptId
          = some a ∧ a.status = .confirmed ∧
        a.appointmentDate = none ∧ a.appointmentTime = none) := by
  constructor
  · intro st aptId uid reason now apt hfind hterm
    obtain ⟨hmem, hid, huid⟩ := findAptByIdUser_mem hfind
    have hres := requestReschedule12_nodate_applies st aptId uid reason
      now apt hfind hterm
    rw [hres]
    dsimp only
    refine ⟨rfl, ?_⟩
    have hfa := findApt_saveApt_self_at st
      { apt with
        rescheduleRequest := some {
          reqStatus := .pending,
          reason := reason.getD patientRequestedRescheduleMsg,
          requestedAt := some now,
          requestedBy := some uid,
          preferredDate := none,
          preferredTime := none,
          reviewedAt := none,
          reviewedBy := none },
        status := Status.reschedulePending }
      aptId hid ⟨apt, hmem, rfl⟩
    exact ⟨_, hfa, rfl, _, rfl, rfl, rfl, rfl⟩
  · intro st aptId uid now apt r hfind hreq hpend hpd hpt
    obtain ⟨hmem, hid, huid⟩ := findAptByIdUser_mem hfind
    have hres := acceptReschedule12_applies st aptId uid now apt r hfind
      hreq hpend
    rw [hres]
    dsimp only
    refine ⟨rfl, ?_⟩
    have hfa := findApt_saveApt_self_at st
      { apt with
        appointmentDate := r.preferredDate,
        appointmentTime := r.preferredTime,
        status := Status.confirmed,
        rescheduleRequest := some { r with
          reqStatus := .approved,
          reviewedAt := some now } }
      aptId hid ⟨apt, hmem, rfl⟩
    refine ⟨_, hfa, rfl, ?_, ?_⟩
    · exact hpd
    · exact hpt

/-- C10, witness: requesting a reschedule with no proposed slot on the
concrete scheduled appointment stores a null-slot pending request, and
accepting the concrete null-slot request yields a confirmed appointment
with null date and time. -/
theorem C10_accept_null_slot_witness :
    ((requestReschedule12 stOne 0 7 none none none 0).resp = .ok ∧
      ∃ a, findApt (requestReschedule12 stOne 0 7 none none none
          0).state 0 = some a ∧ a.status = .reschedulePending ∧
        ∃ r, a.rescheduleRequest = some r ∧ r.reqStatus = .pending ∧
          r.preferredDate = none ∧ r.preferredTime = none) ∧
    ((acceptReschedule12 stPend 0 7 9).resp = .ok ∧
      ∃ a, findApt (acceptReschedule12 stPend 0 7 9).state 0 = some a ∧
        a.status = .confirmed ∧ a.appointmentDate = none ∧
        a.appointmentTime = none) := by
  constructor
  · exact C10_accept_null_slot.1 stOne 0 7 none 0 baseApt (by decide)
      (by decide)
  · exact C10_accept_null_slot.2 stPend 0 7 9
      { baseApt with
        status := .reschedulePending,
        rescheduleRequest := some
          ⟨.pending, patientRequestedRescheduleMsg, some 0, some 7,
            none, none, none, none⟩ }
      ⟨.pending, patientRequestedRescheduleMsg, some 0, some 7, none,
        none, none, none⟩
      (by decide) (by decide) (by decide) (by decide) (by decide)

end Clinic
